import Mathlib

/-!
Verification development for the urban-garden genetic-algorithm service
(domain layer: plant catalogue, compatibility lookups, spacing, fitness
evaluator, plant selector, genetic algorithm, request normalization).

All TypeScript `number` values are modelled as exact rationals (`ℚ`).
Transcendental primitives of the JavaScript `Math` object that the source
uses (`Math.sqrt`, `Math.exp`, `Math.log2`) are passed in as an explicit
record of operations `MathOps`, so every definition stays executable and
every theorem quantifies over the primitive implementations it does not
constrain.  `sampleOps` instantiates them on the perfect-square inputs used
by the concrete witnesses, where the JavaScript value is exactly rational.
-/

/-- The `Math` primitives used by the source that are not exact on `ℚ`.
They are threaded through the embedding as a parameter. -/
structure MathOps where
  sqrt : ℚ → ℚ
  exp : ℚ → ℚ
  log2 : ℚ → ℚ

/-- Concrete instantiation of the primitives used to evaluate witnesses on
inputs where the JavaScript result is exactly representable: the square
root is tabulated on the perfect squares the concrete scenarios reach
(0, 1 and 256/25, where `Math.sqrt` is exact), and the sample inputs never
reach `exp`/`log2` (they are given harmless stand-ins). -/
def sampleOps : MathOps where
  sqrt := fun q => if q = 0 then 0 else if q = 1 then 1 else if q = 256/25 then 16/5 else 0
  exp := fun _ => 1
  log2 := fun _ => 0

/-- Stable insertion of `x` into a list sorted descending by `key`:
`x` is placed before the first element whose key is not larger.  Together
with `sortByDesc` this computes the unique stable descending order, which
is what `Array.prototype.sort` (stable since ES2019) produces for the
comparator `(a, b) => key(b) - key(a)`. -/
def insertByDesc (key : α → ℚ) (x : α) : List α → List α
  | [] => [x]
  | y :: ys => if key x < key y then y :: insertByDesc key x ys else x :: y :: ys

/-- Stable sort, descending by `key` (model of the source's
`.sort((a, b) => b.k - a.k)` calls). -/
def sortByDesc (key : α → ℚ) (l : List α) : List α :=
  l.foldr (insertByDesc key) []

/-- All unordered pairs `(l[i], l[j])` with `i < j`, in the order the
source's double `for` loops visit them. -/
def allPairs : List α → List (α × α)
  | [] => []
  | x :: xs => xs.map (fun y => (x, y)) ++ allPairs xs

/-- `src/src/domain/entities/Plant.ts`: immutable catalogue species. -/
structure Plant where
  id : Int
  species : String
  scientificName : String
  type : List String
  sunRequirement : String
  weeklyWatering : ℚ
  harvestDays : ℚ
  soilType : String
  waterPerKg : ℚ
  benefits : List String
  size : ℚ
deriving DecidableEq, Repr

namespace Plant

/-- `Plant.hasType`. -/
def hasType (p : Plant) (t : String) : Bool :=
  p.type.contains t

/-- `Plant.estimatedCost`: 50 MXN per m². -/
def estimatedCost (p : Plant) : ℚ :=
  p.size * 50

end Plant

/-- `src/src/domain/value-objects/Chromosome.ts` (`Position` class):
a point in meters.  The constructor's non-negativity check is not modelled
because no settled claim depends on it. -/
structure Position where
  x : ℚ
  y : ℚ
deriving DecidableEq, Repr

namespace Position

/-- `Position.distanceTo`: Euclidean distance through `Math.sqrt`. -/
def distanceTo (ops : MathOps) (p q : Position) : ℚ :=
  ops.sqrt ((p.x - q.x) * (p.x - q.x) + (p.y - q.y) * (p.y - q.y))

end Position

/-- `src/src/domain/value-objects/Dimensions.ts`. -/
structure Dimensions where
  width : ℚ
  height : ℚ
deriving DecidableEq, Repr

namespace Dimensions

/-- `Dimensions.totalArea` getter. -/
def totalArea (d : Dimensions) : ℚ :=
  d.width * d.height

end Dimensions

/-- `src/src/domain/entities/PlantInstance.ts`: one plant placed at one
position. -/
structure PlantInstance where
  plant : Plant
  position : Position
  width : ℚ
  height : ℚ
  rotation : ℚ
deriving DecidableEq, Repr

namespace PlantInstance

/-- The `PlantInstance` constructor with `width`/`height`/`rotation`
omitted: both dimensions default to `Math.sqrt(plant.size)` and the
rotation to `0`, which passes the constructor's rotation check. -/
def create (ops : MathOps) (plant : Plant) (position : Position) : PlantInstance where
  plant := plant
  position := position
  width := ops.sqrt plant.size
  height := ops.sqrt plant.size
  rotation := 0

/-- The constructor with every property supplied (as `positionMutation`
calls it). -/
def createFull (plant : Plant) (position : Position) (width height rotation : ℚ) :
    PlantInstance :=
  { plant := plant, position := position, width := width, height := height,
    rotation := rotation }

/-- `PlantInstance.totalArea` getter. -/
def totalArea (p : PlantInstance) : ℚ :=
  p.width * p.height

/-- `PlantInstance.totalWeeklyWater` getter. -/
def totalWeeklyWater (p : PlantInstance) : ℚ :=
  p.plant.weeklyWatering

/-- `PlantInstance.totalCost` getter. -/
def totalCost (p : PlantInstance) : ℚ :=
  p.plant.estimatedCost

/-- `PlantInstance.overlaps`: axis-aligned bounding-box intersection. -/
def overlaps (a b : PlantInstance) : Bool :=
  !(a.position.x + a.width ≤ b.position.x ||
    b.position.x + b.width ≤ a.position.x ||
    a.position.y + a.height ≤ b.position.y ||
    b.position.y + b.height ≤ a.position.y)

/-- `PlantInstance.distanceTo`. -/
def distanceTo (ops : MathOps) (a b : PlantInstance) : ℚ :=
  a.position.distanceTo ops b.position

end PlantInstance

/-- The four stored weight components the `Metrics` constructor consumes
(`src/unnamed/part_013`); callers pass the six-column objective row, whose
`CS`/`BSN` entries the constructor never reads. -/
structure WeightRow where
  CEE : ℚ
  PSRNT : ℚ
  EH : ℚ
  UE : ℚ
  CS : ℚ
  BSN : ℚ
deriving DecidableEq, Repr

/-- The raw data handed to the `Metrics` constructor. -/
structure MetricsData where
  CEE : ℚ
  PSRNT : ℚ
  EH : ℚ
  UE : ℚ
deriving DecidableEq, Repr

/-- `src/unnamed/part_013` (`Metrics` class): the four validated sub-scores
and the aggregated fitness. -/
structure Metrics where
  CEE : ℚ
  PSRNT : ℚ
  EH : ℚ
  UE : ℚ
  fitness : ℚ
deriving DecidableEq, Repr

namespace Metrics

/-- `Metrics.validateMetric`: throws unless the value is in `[0, 1]`. -/
def validateMetric (value : ℚ) (name : String) : Except String ℚ :=
  if value < 0 || value > 1 then
    Except.error (name ++ " must be between 0 and 1")
  else
    Except.ok value

/-- The `Metrics` constructor: validates the four sub-scores in order
(`validateMetric` inlined on each field, throwing at the first violation)
and computes the weighted fitness from the four weight components it
reads. -/
def build (data : MetricsData) (weights : WeightRow) : Except String Metrics :=
  if data.CEE < 0 || data.CEE > 1 then .error "CEE must be between 0 and 1"
  else if data.PSRNT < 0 || data.PSRNT > 1 then .error "PSRNT must be between 0 and 1"
  else if data.EH < 0 || data.EH > 1 then .error "EH must be between 0 and 1"
  else if data.UE < 0 || data.UE > 1 then .error "UE must be between 0 and 1"
  else
    .ok { CEE := data.CEE, PSRNT := data.PSRNT, EH := data.EH, UE := data.UE,
          fitness := weights.CEE * data.CEE + weights.PSRNT * data.PSRNT +
            weights.EH * data.EH + weights.UE * data.UE }

end Metrics

/-- `src/src/domain/value-objects/CategoryDistribution.ts`: the stored
percentages. -/
structure CategoryDistribution where
  vegetable : ℚ
  medicinal : ℚ
  ornamental : ℚ
  aromatic : ℚ
deriving DecidableEq, Repr

namespace CategoryDistribution

/-- The optional constructor argument (every field may be absent). -/
structure Data where
  vegetable : Option ℚ := none
  medicinal : Option ℚ := none
  ornamental : Option ℚ := none
  aromatic : Option ℚ := none
deriving DecidableEq, Repr

/-- The `CategoryDistribution` constructor: absent categories default to
`0`, then the total is required to be within `0.01` of `100`, otherwise the
constructor throws. -/
def build (data : Data) : Except String CategoryDistribution :=
  let v := data.vegetable.getD 0
  let m := data.medicinal.getD 0
  let o := data.ornamental.getD 0
  let a := data.aromatic.getD 0
  let total := v + m + o + a
  if |total - 100| > 1/100 then
    Except.error "Category distribution must sum to 100"
  else
    Except.ok { vegetable := v, medicinal := m, ornamental := o, aromatic := a }

end CategoryDistribution

/-- `src/unnamed/part_009` (`Individual` class): a candidate layout. -/
structure Individual where
  dimensions : Dimensions
  genome : List (List (Option Int))
  plants : List PlantInstance
  metrics : Option Metrics
deriving DecidableEq, Repr

namespace Individual

/-- `new Individual(dimensions, genome, plants)`: `metrics` starts unset. -/
def mk0 (dimensions : Dimensions) (genome : List (List (Option Int)))
    (plants : List PlantInstance) : Individual :=
  { dimensions := dimensions, genome := genome, plants := plants, metrics := none }

/-- `Individual.fitness` getter: `metrics?.fitness ?? 0`. -/
def fitness (ind : Individual) : ℚ :=
  (ind.metrics.map Metrics.fitness).getD 0

/-- `Individual.totalPlants` getter. -/
def totalPlants (ind : Individual) : ℕ :=
  ind.plants.length

/-- `Individual.usedArea` getter: left fold of instance areas from 0. -/
def usedArea (ind : Individual) : ℚ :=
  ind.plants.foldl (fun sum p => sum + p.totalArea) 0

/-- `Individual.totalWeeklyWater` getter. -/
def totalWeeklyWater (ind : Individual) : ℚ :=
  ind.plants.foldl (fun sum p => sum + p.totalWeeklyWater) 0

/-- `Individual.totalCost` getter. -/
def totalCost (ind : Individual) : ℚ :=
  ind.plants.foldl (fun sum p => sum + p.totalCost) 0

/-- `Individual.clone`: copies the plant list and keeps the metrics
record. -/
def clone (ind : Individual) : Individual :=
  { dimensions := ind.dimensions, genome := ind.genome, plants := ind.plants,
    metrics := ind.metrics }

/-- Assignment `ind.metrics = m` after an evaluation. -/
def withMetrics (ind : Individual) (m : Metrics) : Individual :=
  { ind with metrics := some m }

end Individual

/-- The two-level compatibility mapping `species1 → species2 → score`,
modelled as nested association lists (a `Map` holds at most one binding per
key). -/
def CompatMatrix : Type :=
  List (String × List (String × ℚ))

/-- `map.get(k)` on the outer level. -/
def CompatMatrix.find (m : CompatMatrix) (species : String) :
    Option (List (String × ℚ)) :=
  List.lookup species m

/-- `map.get(a)?.get(b)`: the directed entry stored under `(a, b)`. -/
def CompatMatrix.entry (m : CompatMatrix) (a b : String) : Option ℚ :=
  (m.find a).bind (List.lookup b)

/-- `FitnessCalculator.getCompatibilityScore`
(`src/src/domain/services/ValidationService.ts`, second class): the `(a, b)`
entry if present, else the `(b, a)` entry if present, else `0`. -/
def FitnessCalculator.getCompatibilityScore (m : CompatMatrix) (a b : String) : ℚ :=
  match m.entry a b with
  | some s => s
  | none =>
    match m.entry b a with
    | some s => s
    | none => 0

/-- `ValidationService.getCompatibilityScore`: same two-way chain as the
fitness calculator's. -/
def ValidationService.getCompatibilityScore (m : CompatMatrix) (a b : String) : ℚ :=
  match m.entry a b with
  | some s => s
  | none =>
    match m.entry b a with
    | some s => s
    | none => 0

/-- `PlantSelectorService.getCompatibility`: same two-way chain. -/
def PlantSelectorService.getCompatibility (m : CompatMatrix) (a b : String) : ℚ :=
  match m.entry a b with
  | some s => s
  | none =>
    match m.entry b a with
    | some s => s
    | none => 0

/-- `GeneticAlgorithm.getCompatibilityScore`
(`src/src/domain/services/OrchardLayoutExporter.ts`): consults only the
`(species1, species2)` direction — `matrix.get(species1)` and, if that
inner map exists, `species1Map.get(species2) ?? 0`. -/
def GeneticAlgorithm.getCompatibilityScore (m : CompatMatrix) (a b : String) : ℚ :=
  match m.find a with
  | none => 0
  | some inner => (List.lookup b inner).getD 0

/-- `PlantSpacingService.getCompatibilityScore`: also one-directional. -/
def PlantSpacingService.getCompatibilityScore (m : CompatMatrix) (a b : String) : ℚ :=
  match m.find a with
  | none => 0
  | some inner => (List.lookup b inner).getD 0

namespace PlantSpacingService

/-- `PlantSpacingService.calculateMinimumDistance`: base distance 2.5 m for
compatibility below −0.5, 1.0 m above 0.5, 1.5 m otherwise, plus half the
square root of each plant's size. -/
def calculateMinimumDistance (ops : MathOps) (m : CompatMatrix)
    (plant1 plant2 : Plant) : ℚ :=
  let compatibilityScore := getCompatibilityScore m plant1.species plant2.species
  let baseDistance : ℚ :=
    if compatibilityScore < -(1/2) then 5/2
    else if compatibilityScore > 1/2 then 1
    else 3/2
  baseDistance + ops.sqrt plant1.size / 2 + ops.sqrt plant2.size / 2

/-- `PlantSpacingService.canBeAdjacent`. -/
def canBeAdjacent (ops : MathOps) (m : CompatMatrix) (plant1 plant2 : Plant)
    (actualDistance : ℚ) : Bool :=
  calculateMinimumDistance ops m plant1 plant2 ≤ actualDistance

/-- `PlantSpacingService.calculateProximityPenalty`. -/
def calculateProximityPenalty (ops : MathOps) (m : CompatMatrix)
    (plant1 plant2 : Plant) (actualDistance : ℚ) : ℚ :=
  let minimumDistance := calculateMinimumDistance ops m plant1 plant2
  if minimumDistance ≤ actualDistance then 0
  else
    let r := 1 - actualDistance / minimumDistance
    r * r

end PlantSpacingService

/-- The four garden objectives. -/
inductive Objective where
  | alimenticio
  | medicinal
  | sostenible
  | ornamental
deriving DecidableEq, Repr

/-- `OBJECTIVE_WEIGHTS` (`src/src/domain/services/ValidationService.ts`,
second class): the six-column weight row per objective. -/
def OBJECTIVE_WEIGHTS : Objective → WeightRow
  | .alimenticio =>
    { CEE := 15/100, PSRNT := 40/100, EH := 15/100, UE := 10/100, CS := 10/100, BSN := 10/100 }
  | .medicinal =>
    { CEE := 20/100, PSRNT := 35/100, EH := 10/100, UE := 10/100, CS := 10/100, BSN := 15/100 }
  | .sostenible =>
    { CEE := 20/100, PSRNT := 15/100, EH := 30/100, UE := 10/100, CS := 10/100, BSN := 15/100 }
  | .ornamental =>
    { CEE := 15/100, PSRNT := 30/100, EH := 10/100, UE := 20/100, CS := 10/100, BSN := 15/100 }

/-- `FitnessConfig` (the `season` field is never read by the calculator and
is omitted). -/
structure FitnessConfig where
  compatibilityMatrix : CompatMatrix
  objective : Objective
  desiredCategoryDistribution : Option CategoryDistribution
  maxWaterWeekly : ℚ

namespace FitnessCalculator

/-- `FitnessCalculator.calculateCEE`: distance-weighted pairwise
compatibility with amplified penalties/bonuses, clamped to `[0, 1]`. -/
def calculateCEE (ops : MathOps) (cfg : FitnessConfig) (ind : Individual) : ℚ :=
  if ind.plants.length < 2 then 1
  else
    let step : (ℚ × ℚ) → (PlantInstance × PlantInstance) → (ℚ × ℚ) :=
      fun acc pair =>
        let p := pair.1
        let q := pair.2
        let distance := p.distanceTo ops q
        let weight := ops.exp (-(distance / 2))
        let compatibility :=
          getCompatibilityScore cfg.compatibilityMatrix p.plant.species q.plant.species
        let contribution :=
          if compatibility < -(1/2) && distance < 3/2 then
            compatibility * weight * 2
          else if compatibility > 1/2 && distance < 1 then
            compatibility * weight * (3/2)
          else
            compatibility * weight
        (acc.1 + contribution, acc.2 + weight)
    let totals := (allPairs ind.plants).foldl step (0, 0)
    if totals.2 = 0 then 1
    else
      let averageScore := totals.1 / totals.2
      max 0 (min 1 ((averageScore + 1) / 2))

/-- `FitnessCalculator.calculateCategoryDistribution`: counts tag
incidences per instance over the four known categories, then normalizes to
percentages (all 25 when no instance carries a known tag).  In exact
rational arithmetic the percentages sum to exactly 100, so the
`CategoryDistribution` constructor validation always passes; the raw record
is built directly. -/
def calculateCategoryDistribution (ind : Individual) : CategoryDistribution :=
  let count : String → ℚ := fun tag =>
    ind.plants.foldl
      (fun acc p => acc + ((p.plant.type.filter (· = tag)).length : ℚ)) 0
  let v := count "vegetable"
  let m := count "medicinal"
  let a := count "aromatic"
  let o := count "ornamental"
  let total := v + m + a + o
  if total = 0 then
    { vegetable := 25, medicinal := 25, aromatic := 25, ornamental := 25 }
  else
    { vegetable := v / total * 100, medicinal := m / total * 100,
      aromatic := a / total * 100, ornamental := o / total * 100 }

/-- `FitnessCalculator.calculateDiversityBonus`: normalized Shannon entropy
of the non-zero category shares, through `Math.log2`. -/
def calculateDiversityBonus (ops : MathOps) (ind : Individual) : ℚ :=
  let dist := calculateCategoryDistribution ind
  let values := [dist.vegetable, dist.medicinal, dist.aromatic, dist.ornamental]
  let entropy :=
    (values.filter (fun v => 0 < v)).foldl
      (fun sum v => sum - v / 100 * ops.log2 (v / 100)) 0
  entropy / ops.log2 4

/-- `FitnessCalculator.calculatePSRNT`: mean-squared-error satisfaction
against the desired distribution, or the diversity bonus when no desired
distribution is configured. -/
def calculatePSRNT (ops : MathOps) (cfg : FitnessConfig) (ind : Individual) : ℚ :=
  match cfg.desiredCategoryDistribution with
  | none => calculateDiversityBonus ops ind
  | some desired =>
    let actual := calculateCategoryDistribution ind
    let e1 := (actual.vegetable - desired.vegetable) * (actual.vegetable - desired.vegetable)
    let e2 := (actual.medicinal - desired.medicinal) * (actual.medicinal - desired.medicinal)
    let e3 := (actual.aromatic - desired.aromatic) * (actual.aromatic - desired.aromatic)
    let e4 := (actual.ornamental - desired.ornamental) * (actual.ornamental - desired.ornamental)
    let mse := (e1 + e2 + e3 + e4) / 4
    max 0 (1 - ops.sqrt mse / 100)

/-- `FitnessCalculator.calculateEH`: water-efficiency curve with optimum
between 80% and 95% usage. -/
def calculateEH (cfg : FitnessConfig) (ind : Individual) : ℚ :=
  let waterUsed := ind.totalWeeklyWater
  let waterMax := cfg.maxWaterWeekly
  if waterMax = 0 then 1
  else
    let usage := waterUsed / waterMax
    if usage > 1 then
      max 0 (1 - (usage - 1) * 2)
    else if 8/10 ≤ usage && usage ≤ 95/100 then 1
    else if usage < 8/10 then usage / (8/10)
    else 1 - (usage - 95/100) * 2

/-- `FitnessCalculator.calculateUE`: space-utilization curve with optimum
between 70% and 85%. -/
def calculateUE (ind : Individual) : ℚ :=
  let usedArea := ind.usedArea
  let totalArea := ind.dimensions.totalArea
  if totalArea = 0 then 0
  else
    let usage := usedArea / totalArea
    if 7/10 ≤ usage && usage ≤ 85/100 then 1
    else if usage < 7/10 then usage / (7/10)
    else max 0 (1 - (usage - 85/100) * 3)

/-- `FitnessCalculator.calculate`: computes CEE, PSRNT, EH and UE (the CS
and BSN calculations are commented out in the source) and builds the
`Metrics` record with the objective's weight row; the constructor may
throw. -/
def calculate (ops : MathOps) (cfg : FitnessConfig) (ind : Individual) :
    Except String Metrics :=
  Metrics.build
    { CEE := calculateCEE ops cfg ind
      PSRNT := calculatePSRNT ops cfg ind
      EH := calculateEH cfg ind
      UE := calculateUE ind }
    (OBJECTIVE_WEIGHTS cfg.objective)

end FitnessCalculator

/-- `PlantSelectionConfig` (`src/src/domain/services/PlantSelectorService.ts`). -/
structure PlantSelectionConfig where
  desiredPlantIds : Option (List Int)
  maxSpecies : ℕ
  objective : Objective
  compatibilityMatrix : CompatMatrix

namespace PlantSelectorService

/-- `filterByUserPreferences`: keep only the desired ids; no restriction
when the list is absent or empty. -/
def filterByUserPreferences (cfg : PlantSelectionConfig) (plants : List Plant) :
    List Plant :=
  match cfg.desiredPlantIds with
  | none => plants
  | some ids =>
    if ids.isEmpty then plants
    else plants.filter (fun plant => ids.contains plant.id)

/-- `filterBySeason`: reserved; currently the identity. -/
def filterBySeason (plants : List Plant) : List Plant :=
  plants

/-- `scoreByObjective`. -/
def scoreByObjective (cfg : PlantSelectionConfig) (plant : Plant) : ℚ :=
  match cfg.objective with
  | .alimenticio => if plant.hasType "vegetable" then 1 else 3/10
  | .medicinal =>
    if plant.hasType "medicinal" then 1
    else if plant.hasType "aromatic" then 6/10 else 2/10
  | .sostenible => max 0 (1 - plant.weeklyWatering / 100)
  | .ornamental =>
    if plant.hasType "ornamental" then 1
    else if plant.hasType "aromatic" then 5/10 else 2/10

/-- `scoreByCompatibility`: mean pairwise compatibility with the other
candidates (same-species candidates excluded), remapped from `[-1, 1]` to
`[0, 1]`; `1` when there is no context. -/
def scoreByCompatibility (cfg : PlantSelectionConfig) (plant : Plant)
    (others : List Plant) : ℚ :=
  if others.length ≤ 1 then 1
  else
    let step : (ℚ × ℚ) → Plant → (ℚ × ℚ) := fun acc other =>
      if other.species = plant.species then acc
      else
        (acc.1 + getCompatibility cfg.compatibilityMatrix plant.species other.species,
         acc.2 + 1)
    let totals := others.foldl step (0, 0)
    if totals.2 = 0 then 1
    else (totals.1 / totals.2 + 1) / 2

/-- `scoreByResourceEfficiency`. -/
def scoreByResourceEfficiency (plant : Plant) : ℚ :=
  (max 0 (1 - plant.size / 2) + max 0 (1 - plant.weeklyWatering / 100)) / 2

/-- `scoreByNutritionalDiversity`. -/
def scoreByNutritionalDiversity (plant : Plant) : ℚ :=
  min 1 ((plant.type.length : ℚ) / 3)

/-- `scorePlant`: the weighted sum 0.3·objective + 0.4·compatibility +
0.2·resources + 0.1·diversity (the `reasons` strings carry no data and are
dropped). -/
def scorePlant (cfg : PlantSelectionConfig) (plant : Plant) (context : List Plant) :
    Plant × ℚ :=
  (plant,
    scoreByObjective cfg plant * (3/10) +
    scoreByCompatibility cfg plant context * (4/10) +
    scoreByResourceEfficiency plant * (2/10) +
    scoreByNutritionalDiversity plant * (1/10))

/-- `checkCompatibilityWithSelected`: accept unless the candidate has more
than one strongly negative (< −0.3) pairing with the already selected
plants. -/
def checkCompatibilityWithSelected (cfg : PlantSelectionConfig) (plant : Plant)
    (selected : List Plant) : Bool :=
  if selected.isEmpty then true
  else
    let negativeCount :=
      (selected.filter (fun other =>
        getCompatibility cfg.compatibilityMatrix plant.species other.species
          < -(3/10))).length
    negativeCount ≤ 1

/-- First pass of `greedySelection`: walk the scored list in order, adding
candidates that pass the compatibility gate, until `maxSpecies`. -/
def greedyPass (cfg : PlantSelectionConfig) :
    List (Plant × ℚ) → List Plant → List Plant
  | [], selected => selected
  | candidate :: rest, selected =>
    if cfg.maxSpecies ≤ selected.length then selected
    else if checkCompatibilityWithSelected cfg candidate.1 selected then
      greedyPass cfg rest (selected ++ [candidate.1])
    else
      greedyPass cfg rest selected

/-- Second pass of `greedySelection`: fill up to `maxSpecies` in score
order ignoring the gate, skipping plants already selected (`includes`). -/
def fillPass (cfg : PlantSelectionConfig) :
    List (Plant × ℚ) → List Plant → List Plant
  | [], selected => selected
  | candidate :: rest, selected =>
    if cfg.maxSpecies ≤ selected.length then selected
    else if selected.contains candidate.1 then fillPass cfg rest selected
    else fillPass cfg rest (selected ++ [candidate.1])

/-- `greedySelection`: gate-respecting pass, then the fill pass when the
gate left fewer than `maxSpecies`. -/
def greedySelection (cfg : PlantSelectionConfig) (scored : List (Plant × ℚ)) :
    List Plant :=
  let selected := greedyPass cfg scored []
  if selected.length < cfg.maxSpecies then fillPass cfg scored selected
  else selected

/-- `selectBestPlants`: filter by user ids, season pass-through, fall back
to the full catalogue when fewer than `maxSpecies` candidates remain, score,
sort descending by score (stable), then greedy selection. -/
def selectBestPlants (cfg : PlantSelectionConfig) (allPlants : List Plant) :
    List Plant :=
  let candidates := filterBySeason (filterByUserPreferences cfg allPlants)
  let candidates := if candidates.length < cfg.maxSpecies then allPlants else candidates
  let scored := candidates.map (fun plant => scorePlant cfg plant candidates)
  let scored := sortByDesc Prod.snd scored
  greedySelection cfg scored

end PlantSelectorService

/-- `GAConfig` (`src/src/domain/services/OrchardLayoutExporter.ts`, second
class).  The optional `seed` is not stored: the embedding threads the
random stream explicitly, and the seeded branch of the constructor is the
LCG stream `seededStream`. -/
structure GAConfig where
  populationSize : ℕ
  maxGenerations : ℕ
  crossoverProbability : ℚ
  mutationRate : ℚ
  insertionRate : ℚ
  deletionRate : ℚ
  tournamentK : ℕ
  eliteCount : ℕ
  patience : ℕ
  convergenceThreshold : ℚ
  timeout : Option ℚ
  maxSpecies : ℕ

/-- `GAConstraints`. -/
structure GAConstraints where
  maxArea : ℚ
  maxWaterWeekly : ℚ
  maxBudget : Option ℚ
  desiredCategoryDistribution : Option CategoryDistribution
  desiredPlantIds : Option (List Int)

namespace GeneticAlgorithm

/-- One step of the seeded RNG:
`state = (state * 9301 + 49297) % 233280`. -/
def lcgNext (state : ℕ) : ℕ :=
  (state * 9301 + 49297) % 233280

/-- The LCG state after `n` updates from `seed`. -/
def lcgState (seed : ℕ) : ℕ → ℕ
  | 0 => seed
  | n + 1 => lcgNext (lcgState seed n)

/-- `seededRandom(seed)`: the `n`-th value drawn from the generator (the
closure updates the state first, then returns `state / 233280`). -/
def seededStream (seed : ℕ) : ℕ → ℚ :=
  fun n => (lcgState seed (n + 1) : ℚ) / 233280

/-- `Math.floor(q * len)` used as an array index.  For streams with values
in `[0, 1)` — in particular `seededStream` — the result is `< len`. -/
def jsIdx (q : ℚ) (len : ℕ) : ℕ :=
  (Rat.floor (q * len)).toNat

/-- Swap the entries at positions `i` and `j` (identity when either index
is out of range, which no in-range caller triggers). -/
def listSwap (l : List α) (i j : ℕ) : List α :=
  match l.get? i, l.get? j with
  | some a, some b => (l.set i b).set j a
  | _, _ => l

/-- Stand-in for the `undefined` a JavaScript out-of-range array access
yields; never reached when the random stream stays in `[0, 1)` and the
indexed lists are non-empty. -/
def dummyPlant : Plant where
  id := 0
  species := ""
  scientificName := ""
  type := []
  sunRequirement := ""
  weeklyWatering := 0
  harvestDays := 0
  soilType := ""
  waterPerKg := 0
  benefits := []
  size := 0

/-- Out-of-range stand-in for `PlantInstance` lookups; see `dummyPlant`. -/
def dummyInstance : PlantInstance :=
  PlantInstance.createFull dummyPlant ⟨0, 0⟩ 0 0 0

/-- Out-of-range stand-in for `Individual` lookups; see `dummyPlant`. -/
def dummyIndividual : Individual :=
  Individual.mk0 ⟨1, 1⟩ [] []

/-- `GeneticAlgorithm.hasAdequateSpacing`: base distance 2.0 m when the
(one-directionally looked up) compatibility is below −0.5, 0.8 m above
0.5, 1.2 m otherwise, plus half the square root of each plant's size;
the pair is adequately spaced when the center distance reaches that sum. -/
def hasAdequateSpacing (ops : MathOps) (m : CompatMatrix)
    (plant1 plant2 : PlantInstance) : Bool :=
  let distance := plant1.distanceTo ops plant2
  let compatibility := getCompatibilityScore m plant1.plant.species plant2.plant.species
  let minDistance : ℚ :=
    if compatibility < -(1/2) then 2
    else if compatibility > 1/2 then 4/5
    else 6/5
  let radius1 := ops.sqrt plant1.plant.size / 2
  let radius2 := ops.sqrt plant2.plant.size / 2
  minDistance + radius1 + radius2 ≤ distance

/-- Mutable state of the placement loops in `createSmartIndividual`. -/
structure PlaceState where
  placed : List PlantInstance
  usedArea : ℚ
  usedWater : ℚ
  usedBudget : ℚ
  ri : ℕ

/-- The acceptance test of the initializer's rejection sampling: no
collision (overlap or inadequate spacing) against any placed instance,
inside the plot, and within the 85%-area, water and (when a non-zero
budget is set) budget caps. -/
def initPlacementOk (ops : MathOps) (m : CompatMatrix) (width height : ℚ)
    (cons : GAConstraints) (st : PlaceState) (tempInstance : PlantInstance) : Bool :=
  let hasCollision := st.placed.any fun existing =>
    tempInstance.overlaps existing || !hasAdequateSpacing ops m tempInstance existing
  let withinBounds : Bool :=
    tempInstance.position.x + tempInstance.width ≤ width &&
    tempInstance.position.y + tempInstance.height ≤ height &&
    0 ≤ tempInstance.position.x && 0 ≤ tempInstance.position.y
  let withinConstraints : Bool :=
    (st.usedArea + tempInstance.totalArea ≤ cons.maxArea * (85/100) : Bool) &&
    (st.usedWater + tempInstance.totalWeeklyWater ≤ cons.maxWaterWeekly : Bool) &&
    (match cons.maxBudget with
     | none => true
     | some b => if b = 0 then true else st.usedBudget + tempInstance.totalCost ≤ b)
  !hasCollision && withinBounds && withinConstraints

/-- The `while (attempts < 50 && !validPosition)` rejection-sampling loop
of `createSmartIndividual`: each attempt draws an `(x, y)` inside the
margin inset and accepts it through `initPlacementOk`. -/
def tryPlaceLoop (ops : MathOps) (m : CompatMatrix) (r : ℕ → ℚ)
    (width height : ℚ) (cons : GAConstraints) (plant : Plant) :
    ℕ → PlaceState → PlaceState
  | 0, st => st
  | fuel + 1, st =>
    let margin := ops.sqrt plant.size
    let x := margin + r st.ri * (width - 2 * margin)
    let y := margin + r (st.ri + 1) * (height - 2 * margin)
    let tempInstance := PlantInstance.create ops plant ⟨x, y⟩
    if initPlacementOk ops m width height cons st tempInstance then
      { placed := st.placed ++ [tempInstance]
        usedArea := st.usedArea + tempInstance.totalArea
        usedWater := st.usedWater + tempInstance.totalWeeklyWater
        usedBudget := st.usedBudget + tempInstance.totalCost
        ri := st.ri + 2 }
    else
      tryPlaceLoop ops m r width height cons plant fuel { st with ri := st.ri + 2 }

/-- Place `count` instances of one species, 50 attempts each. -/
def placeSpecies (ops : MathOps) (m : CompatMatrix) (r : ℕ → ℚ)
    (width height : ℚ) (cons : GAConstraints) (plant : Plant) :
    ℕ → PlaceState → PlaceState
  | 0, st => st
  | count + 1, st =>
    placeSpecies ops m r width height cons plant count
      (tryPlaceLoop ops m r width height cons plant 50 st)

/-- The chosen-species loop of `createSmartIndividual`: each species first
draws its instance count (`1 + Math.floor(rng() * 2)`), then places. -/
def placeChosen (ops : MathOps) (m : CompatMatrix) (r : ℕ → ℚ)
    (width height : ℚ) (cons : GAConstraints) :
    List Plant → PlaceState → PlaceState
  | [], st => st
  | plant :: rest, st =>
    let count := (1 + Rat.floor (r st.ri * 2)).toNat
    let st := placeSpecies ops m r width height cons plant count
      { st with ri := st.ri + 1 }
    placeChosen ops m r width height cons rest st

/-- The countdown of the Fisher-Yates shuffle (`i` from `length − 1` down
to `1`). -/
def shuffleAux (r : ℕ → ℚ) : List α → ℕ → ℕ → List α × ℕ
  | l, ri, 0 => (l, ri)
  | l, ri, n + 1 =>
    let j := jsIdx (r ri) (n + 2)
    shuffleAux r (listSwap l (n + 1) j) (ri + 1) n

/-- `shuffleArray`: Fisher-Yates shuffle driven by the random stream. -/
def shuffleArray (r : ℕ → ℚ) (l : List α) (ri : ℕ) : List α × ℕ :=
  shuffleAux r l ri (l.length - 1)

/-- `createSmartIndividual`: draw plot dimensions from a random aspect in
`[0.6, 1.4]`, pick `numSpecies` from the shuffled pool, and place one or
two instances per species by rejection sampling.  Returns the individual
and the advanced stream index. -/
def createSmartIndividual (ops : MathOps) (m : CompatMatrix) (cfg : GAConfig)
    (cons : GAConstraints) (selectedPlants : List Plant) (r : ℕ → ℚ) (ri : ℕ) :
    Individual × ℕ :=
  let area := cons.maxArea
  let aspect := 6/10 + r ri * (8/10)
  let width := ops.sqrt (area * aspect)
  let height := area / width
  let dimensions : Dimensions := ⟨width, height⟩
  let numSpecies : ℕ :=
    min selectedPlants.length
      (2 + Rat.floor (r (ri + 1) * ((cfg.maxSpecies : ℚ) - 1))).toNat
  let (shuffled, ri) := shuffleArray r selectedPlants (ri + 2)
  let chosenPlants := shuffled.take numSpecies
  let st := placeChosen ops m r width height cons chosenPlants
    { placed := [], usedArea := 0, usedWater := 0, usedBudget := 0, ri := ri }
  (Individual.mk0 dimensions [] st.placed, st.ri)

/-- `initializePopulationHeuristic`: `populationSize` smart individuals. -/
def initializePopulationHeuristic (ops : MathOps) (m : CompatMatrix)
    (cfg : GAConfig) (cons : GAConstraints) (selectedPlants : List Plant)
    (r : ℕ → ℚ) : ℕ → ℕ → List Individual × ℕ
  | ri, 0 => ([], ri)
  | ri, n + 1 =>
    let (ind, ri) := createSmartIndividual ops m cfg cons selectedPlants r ri
    let (rest, ri) := initializePopulationHeuristic ops m cfg cons selectedPlants r ri n
    (ind :: rest, ri)

end GeneticAlgorithm

namespace GeneticAlgorithm

/-- The inner tournament draw: sample `k` population members by random
index and keep the reduce-winner (strictly better fitness replaces,
ties keep the earlier pick). -/
def tournamentPick (r : ℕ → ℚ) (pop : List Individual) :
    ℕ → ℕ → List Individual × ℕ
  | ri, 0 => ([], ri)
  | ri, k + 1 =>
    let contender := pop.getD (jsIdx (r ri) pop.length) dummyIndividual
    let (rest, ri) := tournamentPick r pop (ri + 1) k
    (contender :: rest, ri)

/-- `tournament.reduce((best, current) => current.fitness > best.fitness ?
current : best)`; the empty tournament (tournamentK = 0) would throw in
JavaScript and is mapped to the dummy individual. -/
def tournamentWinner : List Individual → Individual
  | [] => dummyIndividual
  | h :: t => t.foldl (fun best current =>
      if best.fitness < current.fitness then current else best) h

/-- `tournamentSelection`: `populationSize` independent tournaments with
replacement. -/
def tournamentSelection (cfg : GAConfig) (r : ℕ → ℚ) (pop : List Individual) :
    ℕ → ℕ → List Individual × ℕ
  | ri, 0 => ([], ri)
  | ri, n + 1 =>
    let (tournament, ri) := tournamentPick r pop ri cfg.tournamentK
    let winner := tournamentWinner tournament
    let (rest, ri) := tournamentSelection cfg r pop ri n
    (winner :: rest, ri)

/-- The index loop of `uniformCrossover`: one coin flip per index; each
child receives the chosen parent's instance at that index when present. -/
def crossAux (r : ℕ → ℚ) (p1 p2 : List PlantInstance) :
    ℕ → ℕ → ℕ → List PlantInstance × List PlantInstance × ℕ
  | _, ri, 0 => ([], [], ri)
  | i, ri, n + 1 =>
    let pickFirst : Bool := r ri < 1/2
    let (rest1, rest2, riEnd) := crossAux r p1 p2 (i + 1) (ri + 1) n
    let a := (p1.get? i).toList
    let b := (p2.get? i).toList
    if pickFirst then (a ++ rest1, b ++ rest2, riEnd)
    else (b ++ rest1, a ++ rest2, riEnd)

/-- `uniformCrossover`: clones when either parent is empty; otherwise the
index-aligned uniform mix.  Child 1 is built on the first parent's
dimensions and child 2 on the second parent's. -/
def uniformCrossover (r : ℕ → ℚ) (parent1 parent2 : Individual) (ri : ℕ) :
    Individual × Individual × ℕ :=
  if parent1.plants.length = 0 || parent2.plants.length = 0 then
    (parent1.clone, parent2.clone, ri)
  else
    let maxLen := max parent1.plants.length parent2.plants.length
    let (c1, c2, ri) := crossAux r parent1.plants parent2.plants 0 ri maxLen
    (Individual.mk0 parent1.dimensions [] c1, Individual.mk0 parent2.dimensions [] c2, ri)

/-- The pairwise reproduction loop of the run (`for i += 2`): a lone last
parent is dropped; each full pair flips the crossover coin and either
crosses or clones. -/
def crossoverPhase (cfg : GAConfig) (r : ℕ → ℚ) :
    List Individual → ℕ → List Individual × ℕ
  | a :: b :: rest, ri =>
    if r ri < cfg.crossoverProbability then
      let (c1, c2, ri) := uniformCrossover r a b (ri + 1)
      let (others, ri) := crossoverPhase cfg r rest ri
      (c1 :: c2 :: others, ri)
    else
      let (others, ri) := crossoverPhase cfg r rest (ri + 1)
      (a.clone :: b.clone :: others, ri)
  | [_], ri => ([], ri)
  | [], ri => ([], ri)

/-- The re-draw loop for the second swap index (`while (idx2 === idx1)`),
fuel-bounded: the JavaScript loop retries unboundedly and the model stops
retrying after the fuel — the two agree whenever the stream produces a
fresh index within the fuel, as the LCG does in practice. -/
def pickDifferent (r : ℕ → ℚ) (len idx1 : ℕ) : ℕ → ℕ → ℕ × ℕ
  | ri, 0 => (jsIdx (r ri) len, ri + 1)
  | ri, fuel + 1 =>
    let c := jsIdx (r ri) len
    if c = idx1 then pickDifferent r len idx1 (ri + 1) fuel else (c, ri + 1)

/-- `swapMutation`: exchange two random list positions (the positions
travel with the instances, so the geometry is unchanged). -/
def swapMutation (r : ℕ → ℚ) (ind : Individual) (ri : ℕ) : Individual × ℕ :=
  if ind.plants.length < 2 then (ind, ri)
  else
    let len := ind.plants.length
    let idx1 := jsIdx (r ri) len
    let (idx2, ri) := pickDifferent r len idx1 (ri + 1) 100
    ({ ind with plants := listSwap ind.plants idx1 idx2 }, ri)

/-- The 30-attempt rejection-sampling loop of `insertMutation`. -/
def insertLoop (ops : MathOps) (m : CompatMatrix) (r : ℕ → ℚ)
    (cons : GAConstraints) (newPlant : Plant) :
    Individual → ℕ → ℕ → Individual × ℕ
  | ind, ri, 0 => (ind, ri)
  | ind, ri, fuel + 1 =>
    let margin := ops.sqrt newPlant.size
    let x := margin + r ri * (ind.dimensions.width - 2 * margin)
    let y := margin + r (ri + 1) * (ind.dimensions.height - 2 * margin)
    let inst := PlantInstance.create ops newPlant ⟨x, y⟩
    let hasCollision := ind.plants.any fun existing =>
      inst.overlaps existing || !hasAdequateSpacing ops m inst existing
    let withinBounds : Bool :=
      x + inst.width ≤ ind.dimensions.width &&
      y + inst.height ≤ ind.dimensions.height
    let newUsedArea := ind.usedArea + inst.totalArea
    let newWater := ind.totalWeeklyWater + inst.totalWeeklyWater
    if !hasCollision && withinBounds &&
        (newUsedArea ≤ cons.maxArea * (85/100) : Bool) &&
        (newWater ≤ cons.maxWaterWeekly : Bool) then
      ({ ind with plants := ind.plants ++ [inst] }, ri + 2)
    else
      insertLoop ops m r cons newPlant ind (ri + 2) fuel

/-- `insertMutation`: below the `3·maxSpecies` cap, draw a pool species and
try up to 30 placements honoring spacing, bounds, and the area/water
caps; on failure the individual is unchanged. -/
def insertMutation (ops : MathOps) (m : CompatMatrix) (cfg : GAConfig)
    (cons : GAConstraints) (selectedPlants : List Plant) (r : ℕ → ℚ)
    (ind : Individual) (ri : ℕ) : Individual × ℕ :=
  if cfg.maxSpecies * 3 ≤ ind.plants.length then (ind, ri)
  else
    let newPlant := selectedPlants.getD (jsIdx (r ri) selectedPlants.length) dummyPlant
    insertLoop ops m r cons newPlant ind (ri + 1) 30

/-- `deleteMutation`: above two plants, remove a uniformly chosen one. -/
def deleteMutation (r : ℕ → ℚ) (ind : Individual) (ri : ℕ) : Individual × ℕ :=
  if ind.plants.length ≤ 2 then (ind, ri)
  else
    let idx := jsIdx (r ri) ind.plants.length
    ({ ind with plants := ind.plants.eraseIdx idx }, ri + 1)

/-- The 20-attempt relocation loop of `positionMutation`: the collision
check runs against every plant except the moved one. -/
def positionLoop (ops : MathOps) (m : CompatMatrix) (r : ℕ → ℚ)
    (ind : Individual) (idx : ℕ) (plantToMove : PlantInstance) :
    ℕ → ℕ → Individual × ℕ
  | ri, 0 => (ind, ri)
  | ri, fuel + 1 =>
    let margin := ops.sqrt plantToMove.plant.size
    let newX := margin + r ri * (ind.dimensions.width - 2 * margin)
    let newY := margin + r (ri + 1) * (ind.dimensions.height - 2 * margin)
    let movedPlant := PlantInstance.createFull plantToMove.plant ⟨newX, newY⟩
      plantToMove.width plantToMove.height plantToMove.rotation
    let otherPlants := (ind.plants.enum.filter (fun p => p.1 ≠ idx)).map Prod.snd
    let hasCollision := otherPlants.any fun existing =>
      movedPlant.overlaps existing || !hasAdequateSpacing ops m movedPlant existing
    let withinBounds : Bool :=
      newX + movedPlant.width ≤ ind.dimensions.width &&
      newY + movedPlant.height ≤ ind.dimensions.height
    if !hasCollision && withinBounds then
      ({ ind with plants := ind.plants.set idx movedPlant }, ri + 2)
    else
      positionLoop ops m r ind idx plantToMove (ri + 2) fuel

/-- `positionMutation`: relocate one uniformly chosen instance, keeping its
plant, footprint and rotation. -/
def positionMutation (ops : MathOps) (m : CompatMatrix) (r : ℕ → ℚ)
    (ind : Individual) (ri : ℕ) : Individual × ℕ :=
  if ind.plants.length = 0 then (ind, ri)
  else
    let idx := jsIdx (r ri) ind.plants.length
    let plantToMove := ind.plants.getD idx dummyInstance
    positionLoop ops m r ind idx plantToMove (ri + 1) 20

/-- The per-offspring mutation pass: swap, insert, delete and relocate
gates, each drawing its own coin in this order. -/
def mutateOne (ops : MathOps) (m : CompatMatrix) (cfg : GAConfig)
    (cons : GAConstraints) (selectedPlants : List Plant) (r : ℕ → ℚ)
    (ind : Individual) (ri : ℕ) : Individual × ℕ :=
  let (ind, ri) :=
    if r ri < cfg.mutationRate then swapMutation r ind (ri + 1) else (ind, ri + 1)
  let (ind, ri) :=
    if r ri < cfg.insertionRate then
      insertMutation ops m cfg cons selectedPlants r ind (ri + 1)
    else (ind, ri + 1)
  let (ind, ri) :=
    if r ri < cfg.deletionRate then deleteMutation r ind (ri + 1) else (ind, ri + 1)
  let (ind, ri) :=
    if r ri < cfg.mutationRate * (1/2) then
      positionMutation ops m r ind (ri + 1)
    else (ind, ri + 1)
  (ind, ri)

/-- `offspring.forEach(...)` mutation pass over the whole brood. -/
def mutateAll (ops : MathOps) (m : CompatMatrix) (cfg : GAConfig)
    (cons : GAConstraints) (selectedPlants : List Plant) (r : ℕ → ℚ) :
    List Individual → ℕ → List Individual × ℕ
  | [], ri => ([], ri)
  | ind :: rest, ri =>
    let (ind, ri) := mutateOne ops m cfg cons selectedPlants r ind ri
    let (others, ri) := mutateAll ops m cfg cons selectedPlants r rest ri
    (ind :: others, ri)

end GeneticAlgorithm

namespace GeneticAlgorithm

/-- The evaluation passes (`ind.metrics = fitnessCalculator.calculate(ind)`
over a population); a thrown evaluation error propagates out of `run`. -/
def evaluateAll (ops : MathOps) (fcfg : FitnessConfig) :
    List Individual → Except String (List Individual)
  | [] => .ok []
  | ind :: rest => do
    let m ← FitnessCalculator.calculate ops fcfg ind
    let others ← evaluateAll ops fcfg rest
    return ind.withMetrics m :: others

/-- `elitistReplacement`: parents and offspring together, stably sorted by
fitness descending, truncated to `populationSize`. -/
def elitistReplacement (cfg : GAConfig) (parents offspring : List Individual) :
    List Individual :=
  (sortByDesc Individual.fitness (parents ++ offspring)).take cfg.populationSize

/-- `calculateVariance`. -/
def calculateVariance (values : List ℚ) : ℚ :=
  if values.length = 0 then 0
  else
    let mean := values.foldl (· + ·) 0 / (values.length : ℚ)
    (values.map (fun v => (v - mean) * (v - mean))).foldl (· + ·) 0 /
      (values.length : ℚ)

/-- `Math.max(...population.map(ind => ind.fitness))`; the empty spread
(−∞ in JavaScript) is mapped to 0 and never reached with a non-empty
population. -/
def maxFitness : List Individual → ℚ
  | [] => 0
  | h :: t => t.foldl (fun acc i => max acc i.fitness) h.fitness

/-- One row of `generationStats`. -/
structure GenStat where
  generation : ℕ
  bestFitness : ℚ
  avgFitness : ℚ
  diversity : ℚ
  avgSpeciesCount : ℚ
deriving DecidableEq, Repr

/-- The stopping reasons of a run. -/
inductive StopReason where
  | convergence
  | max_generations
  | timeout
  | patience
deriving DecidableEq, Repr

/-- `GAResult` (the wall-clock `executionTimeMs` field carries no verified
content and is omitted; `generations` and `convergenceGeneration` are the
source's `generationStats.length * 10`). -/
structure GAResult where
  topSolutions : List Individual
  generations : ℕ
  convergenceGeneration : ℕ
  stoppingReason : StopReason
  generationStats : List GenStat
  selectedPlants : List Plant
deriving DecidableEq, Repr

/-- One generation of the evolutionary loop followed by the remaining
fuel; `clock g` models `Date.now() - startTime` observed at generation `g`
(the zero-timeout configuration is falsy in JavaScript and disables the
check). -/
def runLoop (ops : MathOps) (cfg : GAConfig) (fcfg : FitnessConfig)
    (cons : GAConstraints) (selectedPlants : List Plant) (r : ℕ → ℚ)
    (clock : ℕ → ℚ) :
    ℕ → List Individual → ℚ → ℕ → List GenStat → ℕ →
    Except String (List Individual × StopReason × List GenStat × ℕ)
  | 0, pop, _, _, stats, ri => .ok (pop, .max_generations, stats, ri)
  | fuel + 1, pop, best, stall, stats, ri =>
    let generation := cfg.maxGenerations - (fuel + 1)
    let timedOut : Bool :=
      match cfg.timeout with
      | none => false
      | some t => !(t = 0 : Bool) && (t < clock generation : Bool)
    if timedOut then .ok (pop, .timeout, stats, ri)
    else do
      let (selected, ri) := tournamentSelection cfg r pop ri cfg.populationSize
      let (offspring, ri) := crossoverPhase cfg r selected ri
      let (offspring, ri) := mutateAll ops fcfg.compatibilityMatrix cfg cons
        selectedPlants r offspring ri
      let offspring ← evaluateAll ops fcfg offspring
      let pop := elitistReplacement cfg pop offspring
      let currentBest := maxFitness pop
      let improvement := currentBest - best
      let (best, stall) :=
        if improvement > 1/1000 then (currentBest, 0) else (best, stall + 1)
      let stats :=
        if generation % 10 = 0 || generation = cfg.maxGenerations - 1 then
          let avgFitness :=
            (pop.foldl (fun sum ind => sum + ind.fitness) 0) / (pop.length : ℚ)
          let diversity := calculateVariance (pop.map Individual.fitness)
          let avgSpeciesCount :=
            (pop.foldl (fun sum ind => sum + (ind.plants.length : ℚ)) 0) /
              (pop.length : ℚ)
          stats ++ [{ generation := generation, bestFitness := currentBest,
                      avgFitness := avgFitness, diversity := diversity,
                      avgSpeciesCount := avgSpeciesCount }]
        else stats
      if cfg.patience ≤ stall then .ok (pop, .patience, stats, ri)
      else if calculateVariance (pop.map Individual.fitness) <
          cfg.convergenceThreshold then
        .ok (pop, .convergence, stats, ri)
      else
        runLoop ops cfg fcfg cons selectedPlants r clock fuel pop best stall stats ri

/-- `GeneticAlgorithm.run`: pool selection, heuristic initialization,
initial evaluation, the evolutionary loop, and the sorted top 3.  The
random stream `r` and the elapsed-time oracle `clock` are explicit inputs:
the seeded constructor branch passes `r := seededStream seed`. -/
def run (ops : MathOps) (allPlants : List Plant) (fcfg : FitnessConfig)
    (cfg : GAConfig) (cons : GAConstraints) (objective : Objective)
    (r : ℕ → ℚ) (clock : ℕ → ℚ) : Except String GAResult := do
  let selectorCfg : PlantSelectionConfig :=
    { desiredPlantIds := cons.desiredPlantIds
      maxSpecies := cfg.maxSpecies
      objective := objective
      compatibilityMatrix := fcfg.compatibilityMatrix }
  let selectedPlants := PlantSelectorService.selectBestPlants selectorCfg allPlants
  let (population, ri) := initializePopulationHeuristic ops fcfg.compatibilityMatrix
    cfg cons selectedPlants r 0 cfg.populationSize
  let population ← evaluateAll ops fcfg population
  let best := maxFitness population
  let (pop, reason, stats, _) ← runLoop ops cfg fcfg cons selectedPlants r clock
    cfg.maxGenerations population best 0 [] ri
  let sortedPop := sortByDesc Individual.fitness pop
  return { topSolutions := sortedPop.take 3
           generations := stats.length * 10
           convergenceGeneration := stats.length * 10
           stoppingReason := reason
           generationStats := stats
           selectedPlants := selectedPlants }

/-- The seeded entry point: a `GAConfig` whose `seed` is set draws every
random decision of `run` from the LCG stream of that seed. -/
def runSeeded (ops : MathOps) (allPlants : List Plant) (fcfg : FitnessConfig)
    (cfg : GAConfig) (cons : GAConstraints) (objective : Objective)
    (seed : ℕ) (clock : ℕ → ℚ) : Except String GAResult :=
  run ops allPlants fcfg cfg cons objective (seededStream seed) clock

end GeneticAlgorithm

/-- `GenerateGardenRequestDto` (`src/unnamed/part_015`): the inbound
request with its optional fields. -/
structure GenerateGardenRequest where
  userId : Option String
  desiredPlantIds : Option (List Int)
  maxPlantSpecies : Option ℕ
  dimensions : Option Dimensions
  waterLimit : Option ℚ
  userExperience : ℕ
  season : Option String
  location : Option (ℚ × ℚ)
  categoryDistribution : Option CategoryDistribution.Data
  budget : Option ℚ
  objective : Option Objective
  maintenanceMinutes : Option ℚ

/-- The request with every optional field absent. -/
def GenerateGardenRequest.minimal (userId : String) (userExperience : ℕ) :
    GenerateGardenRequest where
  userId := some userId
  desiredPlantIds := none
  maxPlantSpecies := none
  dimensions := none
  waterLimit := none
  userExperience := userExperience
  season := none
  location := none
  categoryDistribution := none
  budget := none
  objective := none
  maintenanceMinutes := none

/-- `NormalizedRequest` (`src/unnamed/part_016`). -/
structure NormalizedRequest where
  userId : Option String
  desiredPlantIds : List Int
  maxPlantSpecies : ℕ
  dimensions : Dimensions
  waterLimit : ℚ
  userExperience : ℕ
  season : String
  location : ℚ × ℚ
  categoryDistribution : CategoryDistribution
  budget : ℚ
  objective : Objective
  maintenanceMinutes : ℚ

/-- JavaScript `x || d` on an optional number: `undefined` and `0` are
falsy and take the default. -/
def jsOrQ : Option ℚ → ℚ → ℚ
  | none, d => d
  | some x, d => if x = 0 then d else x

/-- JavaScript `x || d` on an optional natural. -/
def jsOrNat : Option ℕ → ℕ → ℕ
  | none, d => d
  | some x, d => if x = 0 then d else x

namespace GenerateGardenUseCase

/-- `GenerateGardenUseCase.normalizeRequest`: applies the documented
defaults (`r 0`–`r 2` are the `Math.random()` draws backing the random
area, aspect and water defaults).  The `categoryDistribution` field runs
the `CategoryDistribution` constructor — on the argument when supplied,
else on the empty object — and a constructor throw propagates. -/
def normalizeRequest (ops : MathOps) (req : GenerateGardenRequest)
    (r : ℕ → ℚ) : Except String NormalizedRequest := do
  let randomArea := 1 + r 0 * 4
  let randomWidth := ops.sqrt (randomArea * (1/2 + r 1))
  let randomHeight := randomArea / randomWidth
  let categoryDistribution ←
    match req.categoryDistribution with
    | some d => CategoryDistribution.build d
    | none => CategoryDistribution.build {}
  return { userId := req.userId
           desiredPlantIds := req.desiredPlantIds.getD []
           maxPlantSpecies := jsOrNat req.maxPlantSpecies 5
           dimensions := req.dimensions.getD ⟨randomWidth, randomHeight⟩
           waterLimit := jsOrQ req.waterLimit (randomArea * (50 + r 2 * 30))
           userExperience := if req.userExperience = 0 then 2 else req.userExperience
           season := (req.season).getD "auto"
           location := req.location.getD (1675/100, -(9311/100))
           categoryDistribution := categoryDistribution
           budget := jsOrQ req.budget (randomArea * 200)
           objective := req.objective.getD .alimenticio
           maintenanceMinutes := jsOrQ req.maintenanceMinutes
             (((if req.userExperience = 0 then 2 else req.userExperience) : ℚ) * 60) }

end GenerateGardenUseCase

/-- Modelled from the spec (§4.4 CS): the harvest-cycle synchronization
sub-metric `max(0, 1 − stdev(harvestDays)/60)`, `1` below two instances.
The source computes this only in commented-out code
(`FitnessCalculator._calculateCS`), so the reference definition follows
the spec's words. -/
def specCS (ops : MathOps) (ind : Individual) : ℚ :=
  if ind.plants.length < 2 then 1
  else
    let harvestDays := ind.plants.map fun p => p.plant.harvestDays
    let n : ℚ := harvestDays.length
    let avg := harvestDays.foldl (· + ·) 0 / n
    let variance := (harvestDays.map fun d => (d - avg) * (d - avg)).foldl (· + ·) 0 / n
    max 0 (1 - ops.sqrt variance / 60)

/-- Modelled from the spec (§4.4 BSN): the soil-diversity sub-metric from
the number `k` of distinct soil types; the source computes it only in
commented-out code (`FitnessCalculator._calculateBSN`). -/
def specBSN (ind : Individual) : ℚ :=
  let k := (ind.plants.map fun p => p.plant.soilType).dedup.length
  if 2 ≤ k ∧ k ≤ 3 then 1
  else if k = 1 then 6/10
  else max (4/10) (1 - ((k : ℚ) - 3) * (2/10))

/-- Modelled from the spec (§4.4 aggregation): the six-metric weighted sum
over the objective's full weight row, with the CS and BSN values the spec
prescribes.  This is the quantity claim C1 asserts the stored fitness
equals. -/
def specSixMetricFitness (ops : MathOps) (cfg : FitnessConfig) (ind : Individual)
    (m : Metrics) : ℚ :=
  let w := OBJECTIVE_WEIGHTS cfg.objective
  w.CEE * m.CEE + w.PSRNT * m.PSRNT + w.EH * m.EH + w.UE * m.UE +
    w.CS * specCS ops ind + w.BSN * specBSN ind

/-- A vegetable catalogue species used by the concrete scenarios. -/
def plantTomate : Plant where
  id := 1
  species := "Tomate"
  scientificName := "Solanum lycopersicum"
  type := ["vegetable"]
  sunRequirement := "high"
  weeklyWatering := 10
  harvestDays := 60
  soilType := "franco"
  waterPerKg := 100
  benefits := []
  size := 1

/-- A second species for pairwise scenarios. -/
def plantRuda : Plant where
  id := 2
  species := "Ruda"
  scientificName := "Ruta graveolens"
  type := ["medicinal"]
  sunRequirement := "medium"
  weeklyWatering := 0
  harvestDays := 90
  soilType := "arenoso"
  waterPerKg := 50
  benefits := []
  size := 1

/-- A single-instance layout on a 2 m × 1 m plot. -/
def sampleIndividual : Individual :=
  Individual.mk0 ⟨2, 1⟩ [] [PlantInstance.create sampleOps plantTomate ⟨0, 0⟩]

/-- Fitness configuration for the concrete evaluation scenario: empty
matrix, alimenticio objective, all-vegetable desired distribution, 100 L
water cap. -/
def sampleFitnessConfig : FitnessConfig where
  compatibilityMatrix := []
  objective := .alimenticio
  desiredCategoryDistribution :=
    some { vegetable := 100, medicinal := 0, ornamental := 0, aromatic := 0 }
  maxWaterWeekly := 100

/-- The metrics record the evaluator produces on `sampleIndividual`:
CEE 1 (single instance), PSRNT 1 (all-vegetable as desired), EH 1/8
(usage 0.1), UE 5/7 (usage 0.5), fitness the four-weight sum. -/
def sampleMetrics : Metrics where
  CEE := 1
  PSRNT := 1
  EH := 1/8
  UE := 5/7
  fitness := 717/1120

/-- The compatibility matrix holding only the reverse-direction entry
`(Ruda, Tomate) = 1`. -/
def reverseOnlyMatrix : CompatMatrix :=
  [("Ruda", [("Tomate", (1 : ℚ))])]

/-- The matrix storing `(Ruda, Tomate) = −1`, an incompatible pair. -/
def hostileMatrix : CompatMatrix :=
  [("Ruda", [("Tomate", -(1 : ℚ))])]

/-- An individual holding one Tomate at `(1, 1)` on a 6 m × 3 m plot,
input of the concrete insert-mutation scenario. -/
def insertScenarioIndividual : Individual :=
  Individual.mk0 ⟨6, 3⟩ [] [PlantInstance.create sampleOps plantTomate ⟨1, 1⟩]

/-- Constraints that leave the insert-mutation scenario unconstrained by
resources. -/
def insertScenarioConstraints : GAConstraints where
  maxArea := 100
  maxWaterWeekly := 100
  maxBudget := none
  desiredCategoryDistribution := none
  desiredPlantIds := none

/-- GA configuration of the insert-mutation scenario (only `maxSpecies`
is read by `insertMutation`). -/
def insertScenarioConfig : GAConfig where
  populationSize := 40
  maxGenerations := 150
  crossoverProbability := 85/100
  mutationRate := 8/100
  insertionRate := 1/10
  deletionRate := 1/20
  tournamentK := 3
  eliteCount := 3
  patience := 20
  convergenceThreshold := 1/1000
  timeout := none
  maxSpecies := 5

/-- The random draws of the insert scenario: species index 0, then
`x = 1 + 0.8·4 = 4.2` and `y = 1 + 0·1 = 1`. -/
def insertScenarioStream : ℕ → ℚ :=
  fun n => ([0, 8/10, 0] : List ℚ).getD n 0

/-- The instance the insert scenario places: a Ruda at `(4.2, 1)`,
center distance 3.2 m from the placed Tomate. -/
def insertScenarioNewInstance : PlantInstance :=
  PlantInstance.create sampleOps plantRuda ⟨21/5, 1⟩

/-- Selector configuration pinning `desiredPlantIds = [1]` (the Tomate)
with `maxSpecies = 3`. -/
def pinnedSelectorConfig : PlantSelectionConfig where
  desiredPlantIds := some [1]
  maxSpecies := 3
  objective := .alimenticio
  compatibilityMatrix := []

/-- An empty-layout individual on a 1 m × 1 m plot. -/
def emptyIndividualA : Individual :=
  Individual.mk0 ⟨1, 1⟩ [] []

/-- An empty-layout individual on a 2 m × 3 m plot. -/
def emptyIndividualB : Individual :=
  Individual.mk0 ⟨2, 3⟩ [] []

/-- A one-instance layout spending 90 L of water each week. -/
def thirstyIndividual : Individual :=
  Individual.mk0 ⟨2, 1⟩ []
    [PlantInstance.create sampleOps
      { plantTomate with weeklyWatering := 90 } ⟨0, 0⟩]

/-- Fitness configuration with a 100 L water cap and no desired
distribution. -/
def waterConfig : FitnessConfig where
  compatibilityMatrix := []
  objective := .sostenible
  desiredCategoryDistribution := none
  maxWaterWeekly := 100

/-- A one-instance layout spending 8 L of water each week. -/
def mildIndividual : Individual :=
  Individual.mk0 ⟨2, 1⟩ []
    [PlantInstance.create sampleOps
      { plantTomate with weeklyWatering := 8 } ⟨0, 0⟩]

/-- Fitness configuration with a 7 L water cap. -/
def smallWaterConfig : FitnessConfig where
  compatibilityMatrix := []
  objective := .sostenible
  desiredCategoryDistribution := none
  maxWaterWeekly := 7

/-- An individual carrying a fixed fitness value, for the replacement
scenarios. -/
def scoredIndividual (q : ℚ) : Individual :=
  { dimensions := ⟨1, 1⟩, genome := [], plants := [],
    metrics := some { CEE := 0, PSRNT := 0, EH := 0, UE := 0, fitness := q } }

/-- The placement invariant claim C2 is about: every instance satisfies
the genetic algorithm's spacing check against every instance placed
before it (`b` was checked against the earlier `a` at the moment `b` was
accepted). -/
def SpacedAtPlacement (ops : MathOps) (m : CompatMatrix)
    (l : List PlantInstance) : Prop :=
  l.Pairwise fun a b => GeneticAlgorithm.hasAdequateSpacing ops m b a = true

theorem metricsBuild_ok {data : MetricsData} {weights : WeightRow} {m : Metrics}
    (h : Metrics.build data weights = .ok m) :
    0 ≤ m.CEE ∧ m.CEE ≤ 1 ∧ 0 ≤ m.PSRNT ∧ m.PSRNT ≤ 1 ∧
    0 ≤ m.EH ∧ m.EH ≤ 1 ∧ 0 ≤ m.UE ∧ m.UE ≤ 1 ∧
    m.fitness = weights.CEE * m.CEE + weights.PSRNT * m.PSRNT +
      weights.EH * m.EH + weights.UE * m.UE := by
  unfold Metrics.build at h
  split_ifs at h with h1 h2 h3 h4
  all_goals cases h
  simp only [Bool.or_eq_true, decide_eq_true_eq, not_or, not_lt] at h1 h2 h3 h4
  exact ⟨h1.1, h1.2, h2.1, h2.2, h3.1, h3.2, h4.1, h4.2, rfl⟩

theorem insertByDesc_perm (key : α → ℚ) (x : α) (l : List α) :
    (insertByDesc key x l).Perm (x :: l) := by
  induction l with
  | nil => simp [insertByDesc]
  | cons y ys ih =>
    unfold insertByDesc
    split
    · exact ((ih.cons y).trans (List.Perm.swap x y ys))
    · exact List.Perm.refl _

theorem sortByDesc_perm (key : α → ℚ) (l : List α) :
    (sortByDesc key l).Perm l := by
  induction l with
  | nil => simp [sortByDesc]
  | cons y ys ih =>
    exact (insertByDesc_perm key y (sortByDesc key ys)).trans (ih.cons y)

theorem insertByDesc_pairwise {key : α → ℚ} {l : List α}
    (hl : l.Pairwise fun a b => key b ≤ key a) (x : α) :
    (insertByDesc key x l).Pairwise fun a b => key b ≤ key a := by
  induction l with
  | nil => simp [insertByDesc]
  | cons y ys ih =>
    rw [List.pairwise_cons] at hl
    unfold insertByDesc
    split
    · rename_i hxy
      rw [List.pairwise_cons]
      constructor
      · intro z hz
        have hz' : z ∈ x :: ys := (insertByDesc_perm key x ys).mem_iff.mp hz
        rcases List.mem_cons.mp hz' with rfl | hmem
        · exact le_of_lt hxy
        · exact hl.1 z hmem
      · exact ih hl.2
    · rename_i hxy
      rw [List.pairwise_cons]
      refine ⟨?_, List.pairwise_cons.mpr hl⟩
      intro z hz
      rcases List.mem_cons.mp hz with rfl | hmem
      · exact not_lt.mp hxy
      · exact (hl.1 z hmem).trans (not_lt.mp hxy)

theorem sortByDesc_pairwise (key : α → ℚ) (l : List α) :
    (sortByDesc key l).Pairwise fun a b => key b ≤ key a := by
  induction l with
  | nil => simp [sortByDesc]
  | cons y ys ih => exact insertByDesc_pairwise ih y

theorem foldl_max_le_init {t : List Individual} {b : ℚ} :
    b ≤ t.foldl (fun acc i => max acc i.fitness) b := by
  induction t generalizing b with
  | nil => simp
  | cons h rest ih => exact le_trans (le_max_left b h.fitness) ih

theorem le_foldl_max {t : List Individual} {x : Individual} (hx : x ∈ t) (b : ℚ) :
    x.fitness ≤ t.foldl (fun acc i => max acc i.fitness) b := by
  induction t generalizing b with
  | nil => cases hx
  | cons h rest ih =>
    rcases List.mem_cons.mp hx with rfl | hmem
    · exact le_trans (le_max_right b x.fitness) foldl_max_le_init
    · exact ih hmem _

theorem le_maxFitness {l : List Individual} {x : Individual} (hx : x ∈ l) :
    x.fitness ≤ GeneticAlgorithm.maxFitness l := by
  cases l with
  | nil => cases hx
  | cons h t =>
    unfold GeneticAlgorithm.maxFitness
    rcases List.mem_cons.mp hx with rfl | hmem
    · exact foldl_max_le_init
    · exact le_foldl_max hmem _

theorem foldl_max_attained (t : List Individual) (b : ℚ) :
    t.foldl (fun acc i => max acc i.fitness) b = b ∨
      ∃ x ∈ t, t.foldl (fun acc i => max acc i.fitness) b = x.fitness := by
  induction t generalizing b with
  | nil => exact Or.inl rfl
  | cons h rest ih =>
    rw [List.foldl_cons]
    rcases ih (max b h.fitness) with heq | ⟨x, hx, heq⟩
    · rcases max_choice b h.fitness with hm | hm
      · exact Or.inl (by rw [heq, hm])
      · exact Or.inr ⟨h, List.mem_cons_self h rest, by rw [heq, hm]⟩
    · exact Or.inr ⟨x, List.mem_cons.mpr (Or.inr hx), heq⟩

theorem maxFitness_mem {l : List Individual} (h : l ≠ []) :
    ∃ x ∈ l, GeneticAlgorithm.maxFitness l = x.fitness := by
  cases l with
  | nil => exact absurd rfl h
  | cons hd t =>
    unfold GeneticAlgorithm.maxFitness
    rcases foldl_max_attained t hd.fitness with heq | ⟨x, hx, heq⟩
    · exact ⟨hd, List.mem_cons_self hd t, heq⟩
    · exact ⟨x, List.mem_cons.mpr (Or.inr hx), heq⟩

theorem initPlacementOk_spacing {ops : MathOps} {m : CompatMatrix}
    {width height : ℚ} {cons : GAConstraints} {st : GeneticAlgorithm.PlaceState}
    {inst : PlantInstance}
    (h : GeneticAlgorithm.initPlacementOk ops m width height cons st inst = true) :
    ∀ e ∈ st.placed, GeneticAlgorithm.hasAdequateSpacing ops m inst e = true := by
  unfold GeneticAlgorithm.initPlacementOk at h
  simp only [Bool.and_eq_true, Bool.not_eq_true', List.any_eq_false, Bool.or_eq_true,
    not_or, Bool.not_eq_true, Bool.not_eq_false] at h
  intro e he
  exact (h.1.1 e he).2

theorem tryPlaceLoop_invariant (ops : MathOps) (m : CompatMatrix) (r : ℕ → ℚ)
    (width height : ℚ) (cons : GAConstraints) (plant : Plant) :
    ∀ (fuel : ℕ) (st : GeneticAlgorithm.PlaceState),
      SpacedAtPlacement ops m st.placed →
      SpacedAtPlacement ops m
        (GeneticAlgorithm.tryPlaceLoop ops m r width height cons plant fuel st).placed := by
  intro fuel
  induction fuel with
  | zero => exact fun st h => h
  | succ n ih =>
    intro st h
    unfold GeneticAlgorithm.tryPlaceLoop
    simp only []
    split
    · rename_i hok
      unfold SpacedAtPlacement
      refine List.pairwise_append.mpr ⟨h, List.pairwise_singleton _ _, ?_⟩
      intro a ha b hb
      rw [List.mem_singleton] at hb
      subst hb
      exact initPlacementOk_spacing hok a ha
    · exact ih _ h

theorem placeSpecies_invariant (ops : MathOps) (m : CompatMatrix) (r : ℕ → ℚ)
    (width height : ℚ) (cons : GAConstraints) (plant : Plant) :
    ∀ (count : ℕ) (st : GeneticAlgorithm.PlaceState),
      SpacedAtPlacement ops m st.placed →
      SpacedAtPlacement ops m
        (GeneticAlgorithm.placeSpecies ops m r width height cons plant count st).placed := by
  intro count
  induction count with
  | zero => exact fun st h => h
  | succ n ih =>
    intro st h
    exact ih _ (tryPlaceLoop_invariant ops m r width height cons plant 50 st h)

theorem placeChosen_invariant (ops : MathOps) (m : CompatMatrix) (r : ℕ → ℚ)
    (width height : ℚ) (cons : GAConstraints) :
    ∀ (chosen : List Plant) (st : GeneticAlgorithm.PlaceState),
      SpacedAtPlacement ops m st.placed →
      SpacedAtPlacement ops m
        (GeneticAlgorithm.placeChosen ops m r width height cons chosen st).placed := by
  intro chosen
  induction chosen with
  | nil => exact fun st h => h
  | cons plant rest ih =>
    intro st h
    exact ih _ (placeSpecies_invariant ops m r width height cons plant _ _ h)

theorem insertLoop_cases (ops : MathOps) (m : CompatMatrix) (r : ℕ → ℚ)
    (cons : GAConstraints) (newPlant : Plant) :
    ∀ (fuel : ℕ) (ind : Individual) (ri : ℕ),
      (GeneticAlgorithm.insertLoop ops m r cons newPlant ind ri fuel).1 = ind ∨
      ∃ x, (GeneticAlgorithm.insertLoop ops m r cons newPlant ind ri fuel).1.plants =
          ind.plants ++ [x] ∧
        ∀ e ∈ ind.plants, GeneticAlgorithm.hasAdequateSpacing ops m x e = true := by
  intro fuel
  induction fuel with
  | zero => exact fun ind ri => Or.inl rfl
  | succ n ih =>
    intro ind ri
    unfold GeneticAlgorithm.insertLoop
    simp only []
    split
    · rename_i hok
      simp only [Bool.and_eq_true, Bool.not_eq_true', List.any_eq_false, Bool.or_eq_true,
        not_or, Bool.not_eq_true, Bool.not_eq_false] at hok
      exact Or.inr ⟨_, rfl, fun e he => (hok.1.1.1 e he).2⟩
    · exact ih ind (ri + 2)

theorem positionLoop_cases (ops : MathOps) (m : CompatMatrix) (r : ℕ → ℚ)
    (ind : Individual) (idx : ℕ) (plantToMove : PlantInstance) :
    ∀ (fuel : ℕ) (ri : ℕ),
      (GeneticAlgorithm.positionLoop ops m r ind idx plantToMove ri fuel).1 = ind ∨
      ∃ x, (GeneticAlgorithm.positionLoop ops m r ind idx plantToMove ri fuel).1.plants =
          ind.plants.set idx x ∧
        ∀ e ∈ (ind.plants.enum.filter (fun p => p.1 ≠ idx)).map Prod.snd,
          GeneticAlgorithm.hasAdequateSpacing ops m x e = true := by
  intro fuel
  induction fuel with
  | zero => exact fun ri => Or.inl rfl
  | succ n ih =>
    intro ri
    unfold GeneticAlgorithm.positionLoop
    simp only []
    split
    · rename_i hok
      simp only [Bool.and_eq_true, Bool.not_eq_true', List.any_eq_false, Bool.or_eq_true,
        not_or, Bool.not_eq_true, Bool.not_eq_false] at hok
      exact Or.inr ⟨_, rfl, fun e he => (hok.1 e he).2⟩
    · exact ih (ri + 2)

/-- C1, counterexample: on a concrete evaluated individual the stored
fitness differs from the spec's six-metric weighted sum, and the weights
the evaluator actually applies (the four CEE/PSRNT/EH/UE entries of the
alimenticio row) total 0.8, not 1 — the source's `Metrics` record keeps
only four sub-metrics and its fitness sum omits the CS and BSN columns. -/
theorem C1_counterexample :
    FitnessCalculator.calculate sampleOps sampleFitnessConfig sampleIndividual =
      .ok sampleMetrics ∧
    sampleMetrics.fitness ≠
      specSixMetricFitness sampleOps sampleFitnessConfig sampleIndividual sampleMetrics ∧
    (OBJECTIVE_WEIGHTS .alimenticio).CEE + (OBJECTIVE_WEIGHTS .alimenticio).PSRNT +
      (OBJECTIVE_WEIGHTS .alimenticio).EH + (OBJECTIVE_WEIGHTS .alimenticio).UE = 4/5 ∧
    ¬((OBJECTIVE_WEIGHTS .alimenticio).CEE + (OBJECTIVE_WEIGHTS .alimenticio).PSRNT +
        (OBJECTIVE_WEIGHTS .alimenticio).EH + (OBJECTIVE_WEIGHTS .alimenticio).UE = 1) := by
  refine ⟨?_, ?_, ?_, ?_⟩
  · simp [FitnessCalculator.calculate, FitnessCalculator.calculateCEE,
      FitnessCalculator.calculatePSRNT, FitnessCalculator.calculateCategoryDistribution,
      FitnessCalculator.calculateEH, FitnessCalculator.calculateUE, Metrics.build,
      Individual.usedArea, Individual.totalWeeklyWater, Individual.mk0,
      PlantInstance.create, PlantInstance.totalArea, PlantInstance.totalWeeklyWater,
      Dimensions.totalArea, allPairs, sampleIndividual, sampleFitnessConfig,
      sampleMetrics, sampleOps, plantTomate, OBJECTIVE_WEIGHTS]
    norm_num
  · simp [specSixMetricFitness, specCS, specBSN, sampleMetrics, sampleIndividual,
      Individual.mk0, PlantInstance.create, plantTomate, sampleFitnessConfig,
      OBJECTIVE_WEIGHTS, sampleOps]
    norm_num
  · norm_num [OBJECTIVE_WEIGHTS]
  · norm_num [OBJECTIVE_WEIGHTS]

/-- C1, amended: for every successfully evaluated individual the stored
fitness equals the weighted sum of the four sub-metrics CEE, PSRNT, EH
and UE with the corresponding entries of the configured objective's weight
row, and the weights actually applied total 0.8 for alimenticio and 0.75
for the other objectives. -/
theorem C1_fitness_four_metric_sum (ops : MathOps) (cfg : FitnessConfig)
    (ind : Individual) (m : Metrics)
    (h : FitnessCalculator.calculate ops cfg ind = .ok m) :
    m.fitness =
      (OBJECTIVE_WEIGHTS cfg.objective).CEE * m.CEE +
      (OBJECTIVE_WEIGHTS cfg.objective).PSRNT * m.PSRNT +
      (OBJECTIVE_WEIGHTS cfg.objective).EH * m.EH +
      (OBJECTIVE_WEIGHTS cfg.objective).UE * m.UE ∧
    (OBJECTIVE_WEIGHTS cfg.objective).CEE + (OBJECTIVE_WEIGHTS cfg.objective).PSRNT +
      (OBJECTIVE_WEIGHTS cfg.objective).EH + (OBJECTIVE_WEIGHTS cfg.objective).UE =
      (if cfg.objective = .alimenticio then 4/5 else 3/4) := by
  unfold FitnessCalculator.calculate at h
  refine ⟨(metricsBuild_ok h).2.2.2.2.2.2.2.2, ?_⟩
  cases cfg.objective <;> simp [OBJECTIVE_WEIGHTS] <;> norm_num

/-- C1, witness: the amended statement applied to the concrete evaluation
scenario. -/
theorem C1_witness :
    sampleMetrics.fitness =
      (OBJECTIVE_WEIGHTS sampleFitnessConfig.objective).CEE * sampleMetrics.CEE +
      (OBJECTIVE_WEIGHTS sampleFitnessConfig.objective).PSRNT * sampleMetrics.PSRNT +
      (OBJECTIVE_WEIGHTS sampleFitnessConfig.objective).EH * sampleMetrics.EH +
      (OBJECTIVE_WEIGHTS sampleFitnessConfig.objective).UE * sampleMetrics.UE ∧
    (OBJECTIVE_WEIGHTS sampleFitnessConfig.objective).CEE +
      (OBJECTIVE_WEIGHTS sampleFitnessConfig.objective).PSRNT +
      (OBJECTIVE_WEIGHTS sampleFitnessConfig.objective).EH +
      (OBJECTIVE_WEIGHTS sampleFitnessConfig.objective).UE =
      (if sampleFitnessConfig.objective = .alimenticio then 4/5 else 3/4) :=
  C1_fitness_four_metric_sum sampleOps sampleFitnessConfig sampleIndividual
    sampleMetrics (by
    simp [FitnessCalculator.calculate, FitnessCalculator.calculateCEE,
      FitnessCalculator.calculatePSRNT, FitnessCalculator.calculateCategoryDistribution,
      FitnessCalculator.calculateEH, FitnessCalculator.calculateUE, Metrics.build,
      Individual.usedArea, Individual.totalWeeklyWater, Individual.mk0,
      PlantInstance.create, PlantInstance.totalArea, PlantInstance.totalWeeklyWater,
      Dimensions.totalArea, allPairs, sampleIndividual, sampleFitnessConfig,
      sampleMetrics, sampleOps, plantTomate, OBJECTIVE_WEIGHTS]
    norm_num)

/-- C9: every metrics record the fitness evaluator returns has all four
stored sub-metrics in [0, 1] (enforced by the constructor's validation)
and an aggregated fitness in [0, 1] (the applied weights are non-negative
and total at most 1). -/
theorem C9_metrics_bounds (ops : MathOps) (cfg : FitnessConfig) (ind : Individual)
    (m : Metrics) (h : FitnessCalculator.calculate ops cfg ind = .ok m) :
    0 ≤ m.CEE ∧ m.CEE ≤ 1 ∧ 0 ≤ m.PSRNT ∧ m.PSRNT ≤ 1 ∧ 0 ≤ m.EH ∧ m.EH ≤ 1 ∧
    0 ≤ m.UE ∧ m.UE ≤ 1 ∧ 0 ≤ m.fitness ∧ m.fitness ≤ 1 := by
  unfold FitnessCalculator.calculate at h
  obtain ⟨h1, h2, h3, h4, h5, h6, h7, h8, hfit⟩ := metricsBuild_ok h
  refine ⟨h1, h2, h3, h4, h5, h6, h7, h8, ?_, ?_⟩ <;>
    rw [hfit] <;> cases cfg.objective <;> simp only [OBJECTIVE_WEIGHTS] <;> linarith

/-- C9, witness: the bounds at the concrete evaluation scenario. -/
theorem C9_witness :
    0 ≤ sampleMetrics.CEE ∧ sampleMetrics.CEE ≤ 1 ∧
    0 ≤ sampleMetrics.PSRNT ∧ sampleMetrics.PSRNT ≤ 1 ∧
    0 ≤ sampleMetrics.EH ∧ sampleMetrics.EH ≤ 1 ∧
    0 ≤ sampleMetrics.UE ∧ sampleMetrics.UE ≤ 1 ∧
    0 ≤ sampleMetrics.fitness ∧ sampleMetrics.fitness ≤ 1 :=
  C9_metrics_bounds sampleOps sampleFitnessConfig sampleIndividual sampleMetrics
    (by
    simp [FitnessCalculator.calculate, FitnessCalculator.calculateCEE,
      FitnessCalculator.calculatePSRNT, FitnessCalculator.calculateCategoryDistribution,
      FitnessCalculator.calculateEH, FitnessCalculator.calculateUE, Metrics.build,
      Individual.usedArea, Individual.totalWeeklyWater, Individual.mk0,
      PlantInstance.create, PlantInstance.totalArea, PlantInstance.totalWeeklyWater,
      Dimensions.totalArea, allPairs, sampleIndividual, sampleFitnessConfig,
      sampleMetrics, sampleOps, plantTomate, OBJECTIVE_WEIGHTS]
    norm_num)

/-- C10: elitist replacement (parents and offspring concatenated, stably
sorted by fitness descending, truncated to `populationSize`) never lowers
the best population fitness from one generation to the next. -/
theorem C10_elitist_best_monotone (cfg : GAConfig) (parents offspring : List Individual)
    (hpop : 1 ≤ cfg.populationSize) (hne : parents ≠ []) :
    GeneticAlgorithm.maxFitness parents ≤
      GeneticAlgorithm.maxFitness
        (GeneticAlgorithm.elitistReplacement cfg parents offspring) := by
  obtain ⟨x, hx, hxeq⟩ := maxFitness_mem hne
  rw [hxeq]
  have hperm : (sortByDesc Individual.fitness (parents ++ offspring)).Perm
      (parents ++ offspring) := sortByDesc_perm _ _
  have hxs : x ∈ sortByDesc Individual.fitness (parents ++ offspring) :=
    hperm.mem_iff.mpr (List.mem_append.mpr (Or.inl hx))
  have hsorted := sortByDesc_pairwise Individual.fitness (parents ++ offspring)
  unfold GeneticAlgorithm.elitistReplacement
  cases hseq : sortByDesc Individual.fitness (parents ++ offspring) with
  | nil => rw [hseq] at hxs; cases hxs
  | cons hd tl =>
    rw [hseq, List.pairwise_cons] at hsorted
    have hxle : x.fitness ≤ hd.fitness := by
      rw [hseq] at hxs
      rcases List.mem_cons.mp hxs with rfl | hmem
      · exact le_refl _
      · exact hsorted.1 x hmem
    obtain ⟨k, hk⟩ : ∃ k, cfg.populationSize = k + 1 :=
      ⟨cfg.populationSize - 1, by omega⟩
    rw [hk, List.take_succ_cons]
    exact hxle.trans (le_maxFitness (List.mem_cons_self hd _))

/-- C10, witness: the monotonicity at a concrete one-individual
population. -/
theorem C10_witness :
    GeneticAlgorithm.maxFitness [scoredIndividual (1/2)] ≤
      GeneticAlgorithm.maxFitness
        (GeneticAlgorithm.elitistReplacement insertScenarioConfig
          [scoredIndividual (1/2)] []) :=
  C10_elitist_best_monotone insertScenarioConfig [scoredIndividual (1/2)] []
    (by norm_num [insertScenarioConfig]) (by simp)

/-- C2, counterexample: a concrete successful insert mutation places a
Ruda 3.2 m from an incompatible Tomate.  The genetic algorithm's own
check accepts it (its base distance is 2.0 m, so the minimum is 3.0 m),
but the Spacing Policy minimum the claim names — base 2.5 m plus the two
half-radii, 3.5 m — is violated. -/
theorem C2_counterexample :
    (GeneticAlgorithm.insertMutation sampleOps hostileMatrix insertScenarioConfig
        insertScenarioConstraints [plantRuda] insertScenarioStream
        insertScenarioIndividual 0).1.plants =
      insertScenarioIndividual.plants ++ [insertScenarioNewInstance] ∧
    PlantSpacingService.canBeAdjacent sampleOps hostileMatrix plantRuda plantTomate
      (insertScenarioNewInstance.distanceTo sampleOps
        (PlantInstance.create sampleOps plantTomate ⟨1, 1⟩)) = false := by
  constructor
  · simp [GeneticAlgorithm.insertMutation, GeneticAlgorithm.insertLoop,
      GeneticAlgorithm.jsIdx, GeneticAlgorithm.hasAdequateSpacing,
      GeneticAlgorithm.getCompatibilityScore, CompatMatrix.find, Rat.floor,
      PlantInstance.create, PlantInstance.overlaps, PlantInstance.distanceTo,
      Position.distanceTo, PlantInstance.totalArea, PlantInstance.totalWeeklyWater,
      Individual.usedArea, Individual.totalWeeklyWater, Individual.mk0,
      insertScenarioIndividual, insertScenarioConstraints, insertScenarioConfig,
      insertScenarioStream, insertScenarioNewInstance, hostileMatrix, plantTomate,
      plantRuda, sampleOps, List.lookup]
    norm_num
  · simp [PlantSpacingService.canBeAdjacent, PlantSpacingService.calculateMinimumDistance,
      PlantSpacingService.getCompatibilityScore, CompatMatrix.find,
      PlantInstance.create, PlantInstance.distanceTo, Position.distanceTo,
      insertScenarioNewInstance, hostileMatrix, plantTomate, plantRuda, sampleOps,
      List.lookup]
    norm_num

/-- C2, amended: every instance the heuristic initializer places, and
every instance accepted by the insert or relocate mutation, satisfies the
genetic algorithm's own spacing test against every instance present at
the moment of placement — base distance 2.0 m when the one-directionally
looked-up compatibility is below −0.5, 0.8 m above 0.5, 1.2 m otherwise,
plus half the square root of each plant's size (the Spacing Policy
service's 2.5/1.0/1.5 bases are not what the algorithm enforces). -/
theorem C2_spacing_at_placement :
    (∀ (ops : MathOps) (m : CompatMatrix) (cfg : GAConfig) (cons : GAConstraints)
        (pool : List Plant) (r : ℕ → ℚ) (ri : ℕ),
      SpacedAtPlacement ops m
        (GeneticAlgorithm.createSmartIndividual ops m cfg cons pool r ri).1.plants) ∧
    (∀ (ops : MathOps) (m : CompatMatrix) (cfg : GAConfig) (cons : GAConstraints)
        (pool : List Plant) (r : ℕ → ℚ) (ind : Individual) (ri : ℕ),
      (GeneticAlgorithm.insertMutation ops m cfg cons pool r ind ri).1 = ind ∨
      ∃ x, (GeneticAlgorithm.insertMutation ops m cfg cons pool r ind ri).1.plants =
          ind.plants ++ [x] ∧
        ∀ e ∈ ind.plants, GeneticAlgorithm.hasAdequateSpacing ops m x e = true) ∧
    (∀ (ops : MathOps) (m : CompatMatrix) (r : ℕ → ℚ) (ind : Individual) (ri : ℕ),
      (GeneticAlgorithm.positionMutation ops m r ind ri).1 = ind ∨
      ∃ x idx, (GeneticAlgorithm.positionMutation ops m r ind ri).1.plants =
          ind.plants.set idx x ∧
        ∀ e ∈ (ind.plants.enum.filter (fun p => p.1 ≠ idx)).map Prod.snd,
          GeneticAlgorithm.hasAdequateSpacing ops m x e = true) := by
  refine ⟨?_, ?_, ?_⟩
  · intro ops m cfg cons pool r ri
    unfold GeneticAlgorithm.createSmartIndividual
    simp only []
    obtain ⟨shuffled, ri2⟩ :=
      GeneticAlgorithm.shuffleArray r pool (ri + 2)
    exact placeChosen_invariant ops m r _ _ cons _ _ List.Pairwise.nil
  · intro ops m cfg cons pool r ind ri
    unfold GeneticAlgorithm.insertMutation
    split
    · exact Or.inl rfl
    · exact insertLoop_cases ops m r cons _ 30 ind (ri + 1)
  · intro ops m r ind ri
    unfold GeneticAlgorithm.positionMutation
    split
    · exact Or.inl rfl
    · rcases positionLoop_cases ops m r ind _ _ 20 (ri + 1) with h | ⟨x, hx, hsp⟩
      · exact Or.inl h
      · exact Or.inr ⟨x, _, hx, hsp⟩

/-- C5, counterexample: on two concrete parents with different plot
dimensions, the second child of uniform crossover carries the second
parent's dimensions, not the first parent's as the claim states. -/
theorem C5_counterexample :
    (GeneticAlgorithm.uniformCrossover (fun _ => 0) emptyIndividualA
        emptyIndividualB 0).2.1.dimensions ≠ emptyIndividualA.dimensions := by
  simp [GeneticAlgorithm.uniformCrossover, Individual.clone, emptyIndividualA,
    emptyIndividualB, Individual.mk0]

/-- C5, amended: uniform crossover always returns child 1 on the first
parent's dimensions and child 2 on the second parent's dimensions (both
in the cloning shortcut for an empty parent and in the index-mixing
branch). -/
theorem C5_crossover_dimensions (r : ℕ → ℚ) (p1 p2 : Individual) (ri : ℕ) :
    (GeneticAlgorithm.uniformCrossover r p1 p2 ri).1.dimensions = p1.dimensions ∧
    (GeneticAlgorithm.uniformCrossover r p1 p2 ri).2.1.dimensions = p2.dimensions := by
  unfold GeneticAlgorithm.uniformCrossover
  simp only []
  split
  · exact ⟨rfl, rfl⟩
  · obtain ⟨c1, c2, ri2⟩ :=
      GeneticAlgorithm.crossAux r p1.plants p2.plants 0 ri
        (max p1.plants.length p2.plants.length)
    exact ⟨rfl, rfl⟩

/-- C7, counterexample: with the score stored only under `(Ruda, Tomate)`,
the genetic algorithm's and the spacing service's lookups of
`(Tomate, Ruda)` return 0 instead of the stored 1 — they never consult the
reverse direction, contradicting the claim that every component's lookup
falls back to `(b, a)`. -/
theorem C7_counterexample :
    CompatMatrix.entry reverseOnlyMatrix "Tomate" "Ruda" = none ∧
    CompatMatrix.entry reverseOnlyMatrix "Ruda" "Tomate" = some 1 ∧
    GeneticAlgorithm.getCompatibilityScore reverseOnlyMatrix "Tomate" "Ruda" = 0 ∧
    PlantSpacingService.getCompatibilityScore reverseOnlyMatrix "Tomate" "Ruda" = 0 ∧
    FitnessCalculator.getCompatibilityScore reverseOnlyMatrix "Tomate" "Ruda" = 1 ∧
    (0 : ℚ) ≠ 1 := by
  refine ⟨rfl, rfl, rfl, rfl, rfl, by norm_num⟩

/-- C7, amended: the fitness calculator's, validation service's and plant
selector's lookups are total and bidirectional — the `(a, b)` entry if
present, else the `(b, a)` entry if present, else 0 — while the genetic
algorithm's and spacing service's lookups are total but one-directional:
they return the `(a, b)` entry when present and 0 otherwise, ignoring the
reverse direction. -/
theorem C7_lookup_behavior (m : CompatMatrix) (a b : String) :
    (∀ s, m.entry a b = some s → FitnessCalculator.getCompatibilityScore m a b = s) ∧
    (m.entry a b = none → ∀ s, m.entry b a = some s →
      FitnessCalculator.getCompatibilityScore m a b = s) ∧
    (m.entry a b = none → m.entry b a = none →
      FitnessCalculator.getCompatibilityScore m a b = 0) ∧
    ValidationService.getCompatibilityScore m a b =
      FitnessCalculator.getCompatibilityScore m a b ∧
    PlantSelectorService.getCompatibility m a b =
      FitnessCalculator.getCompatibilityScore m a b ∧
    GeneticAlgorithm.getCompatibilityScore m a b = (m.entry a b).getD 0 ∧
    PlantSpacingService.getCompatibilityScore m a b = (m.entry a b).getD 0 := by
  refine ⟨?_, ?_, ?_, rfl, rfl, ?_, ?_⟩
  · intro s hs
    unfold FitnessCalculator.getCompatibilityScore
    rw [hs]
  · intro h1 s h2
    unfold FitnessCalculator.getCompatibilityScore
    rw [h1, h2]
  · intro h1 h2
    unfold FitnessCalculator.getCompatibilityScore
    rw [h1, h2]
  · unfold GeneticAlgorithm.getCompatibilityScore CompatMatrix.entry
    cases CompatMatrix.find m a <;> rfl
  · unfold PlantSpacingService.getCompatibilityScore CompatMatrix.entry
    cases CompatMatrix.find m a <;> rfl

/-- C7, witness: the bidirectional lookup returns the stored −1 for the
direction it is stored under, and the one-directional lookups agree with
the directed-entry reading, at the concrete hostile matrix. -/
theorem C7_witness :
    FitnessCalculator.getCompatibilityScore hostileMatrix "Ruda" "Tomate" = -1 ∧
    GeneticAlgorithm.getCompatibilityScore hostileMatrix "Ruda" "Tomate" =
      (CompatMatrix.entry hostileMatrix "Ruda" "Tomate").getD 0 :=
  ⟨(C7_lookup_behavior hostileMatrix "Ruda" "Tomate").1 (-1) rfl,
   (C7_lookup_behavior hostileMatrix "Ruda" "Tomate").2.2.2.2.2.1⟩

/-- C6, counterexample: an individual using 90 L against a 100 L cap sits
in the optimal band (EH = 1); doubling the cap drops the usage ratio to
0.45, into the under-utilization branch, and EH falls to 9/16 — doubling
`maxWaterWeekly` decreased EH. -/
theorem C6_counterexample :
    FitnessCalculator.calculateEH waterConfig thirstyIndividual = 1 ∧
    FitnessCalculator.calculateEH
      { waterConfig with maxWaterWeekly := 2 * waterConfig.maxWaterWeekly }
      thirstyIndividual = 9/16 ∧
    ¬((1 : ℚ) ≤ 9/16) := by
  refine ⟨?_, ?_, by norm_num⟩ <;>
    · simp [FitnessCalculator.calculateEH, Individual.totalWeeklyWater, Individual.mk0,
        PlantInstance.totalWeeklyWater, PlantInstance.create, thirstyIndividual,
        waterConfig, plantTomate, sampleOps]
      norm_num

/-- C6, amended: doubling `maxWaterWeekly` with all else fixed never
decreases EH provided the layout uses no water at all or its usage ratio
is at least 8/7 (i.e. `7 · totalWeeklyWater ≥ 8 · maxWaterWeekly`); between
those regimes — in particular anywhere in or near the optimal 80–95%
band — halving the usage ratio strictly lowers the curve, as the
counterexample shows. -/
theorem C6_EH_doubling (cfg : FitnessConfig) (ind : Individual)
    (hpos : 0 < cfg.maxWaterWeekly)
    (hcase : ind.totalWeeklyWater = 0 ∨
      8 * cfg.maxWaterWeekly ≤ 7 * ind.totalWeeklyWater) :
    FitnessCalculator.calculateEH cfg ind ≤
      FitnessCalculator.calculateEH
        { cfg with maxWaterWeekly := 2 * cfg.maxWaterWeekly } ind := by
  have hM : cfg.maxWaterWeekly ≠ 0 := ne_of_gt hpos
  have hM2 : (2 : ℚ) * cfg.maxWaterWeekly ≠ 0 := by positivity
  unfold FitnessCalculator.calculateEH
  simp only []
  rw [if_neg hM, if_neg hM2]
  have hhalf : ind.totalWeeklyWater / (2 * cfg.maxWaterWeekly) =
      ind.totalWeeklyWater / cfg.maxWaterWeekly / 2 := by
    rw [div_div, mul_comm]
  rw [hhalf]
  rcases hcase with h0 | h7
  · rw [h0]
    norm_num
  · have hu87 : 8/7 ≤ ind.totalWeeklyWater / cfg.maxWaterWeekly := by
      rw [div_le_div_iff₀ (by norm_num) hpos]
      linarith
    set u := ind.totalWeeklyWater / cfg.maxWaterWeekly with hu
    split_ifs <;> try linarith
    · exact max_le (le_max_left 0 _) (le_trans (by linarith) (le_max_left 0 _))
    · exact max_le (by norm_num) (by linarith)
    · have hr : u / 2 / (8/10) = 5/8 * u := by ring
      rw [hr]
      have hu0 : (0:ℚ) ≤ u := le_trans (by norm_num) hu87
      exact max_le (by linarith) (by linarith)
    · exact max_le (by linarith) (by linarith)

/-- C6, witness: at usage exactly 8/7 (8 L against a 7 L cap), doubling
the cap keeps EH at 5/7 on both sides, satisfying the amended
hypothesis. -/
theorem C6_witness :
    FitnessCalculator.calculateEH smallWaterConfig mildIndividual ≤
      FitnessCalculator.calculateEH
        { smallWaterConfig with maxWaterWeekly := 2 * smallWaterConfig.maxWaterWeekly }
        mildIndividual :=
  C6_EH_doubling smallWaterConfig mildIndividual (by norm_num [smallWaterConfig])
    (Or.inr (by
      simp [Individual.totalWeeklyWater, mildIndividual, Individual.mk0,
        PlantInstance.totalWeeklyWater, PlantInstance.create, plantTomate,
        smallWaterConfig]
      norm_num))

theorem greedySelection_singleton (cfg : PlantSelectionConfig) (x : Plant × ℚ)
    (h1 : 1 ≤ cfg.maxSpecies) :
    PlantSelectorService.greedySelection cfg [x] = [x.1] := by
  have hgp : PlantSelectorService.greedyPass cfg [x] [] = [x.1] := by
    unfold PlantSelectorService.greedyPass
    rw [if_neg (by simp only [List.length_nil]; omega)]
    rw [if_pos (by simp [PlantSelectorService.checkCompatibilityWithSelected])]
    simp [PlantSelectorService.greedyPass]
  unfold PlantSelectorService.greedySelection
  rw [hgp]
  simp only []
  split
  · rename_i hlt
    unfold PlantSelectorService.fillPass
    rw [if_neg (by simp only [List.length_cons, List.length_nil] at hlt ⊢; omega)]
    rw [if_pos (by simp)]
    simp [PlantSelectorService.fillPass]
  · rfl

/-- C3, counterexample: with a two-plant catalogue, `desiredPlantIds`
pinned to the Tomate alone and `maxSpecies = 3`, the filtered candidate
set (one plant) is smaller than `maxSpecies`, the selector falls back to
the full catalogue, and the returned pool is not the singleton the claim
requires. -/
theorem C3_counterexample :
    plantTomate ∈ [plantTomate, plantRuda] ∧
    pinnedSelectorConfig.desiredPlantIds = some [plantTomate.id] ∧
    PlantSelectorService.selectBestPlants pinnedSelectorConfig
      [plantTomate, plantRuda] ≠ [plantTomate] := by
  refine ⟨by simp, rfl, ?_⟩
  simp [PlantSelectorService.selectBestPlants,
    PlantSelectorService.filterByUserPreferences, PlantSelectorService.filterBySeason,
    PlantSelectorService.scorePlant, PlantSelectorService.scoreByObjective,
    PlantSelectorService.scoreByCompatibility, PlantSelectorService.getCompatibility,
    PlantSelectorService.scoreByResourceEfficiency,
    PlantSelectorService.scoreByNutritionalDiversity,
    PlantSelectorService.greedySelection, PlantSelectorService.greedyPass,
    PlantSelectorService.fillPass, PlantSelectorService.checkCompatibilityWithSelected,
    CompatMatrix.entry, CompatMatrix.find, sortByDesc, insertByDesc, Plant.hasType,
    pinnedSelectorConfig, plantTomate, plantRuda, List.lookup]
  norm_num [PlantSelectorService.selectBestPlants,
    PlantSelectorService.filterByUserPreferences, PlantSelectorService.filterBySeason,
    PlantSelectorService.scorePlant, PlantSelectorService.scoreByObjective,
    PlantSelectorService.scoreByCompatibility, PlantSelectorService.getCompatibility,
    PlantSelectorService.scoreByResourceEfficiency,
    PlantSelectorService.scoreByNutritionalDiversity,
    PlantSelectorService.greedySelection, PlantSelectorService.greedyPass,
    PlantSelectorService.fillPass, PlantSelectorService.checkCompatibilityWithSelected,
    CompatMatrix.entry, CompatMatrix.find, sortByDesc, insertByDesc, Plant.hasType,
    pinnedSelectorConfig, plantTomate, plantRuda, List.lookup]

/-- C3, amended: with `desiredPlantIds = {p.id}` the selected pool is
exactly `[p]` only when the fallback cannot fire: either `maxSpecies = 1`
(the singleton filter survives) or the catalogue itself is `[p]`.  With
`maxSpecies > 1` and any other plant present, the filtered candidate set
(one plant) is smaller than `maxSpecies` and the selector falls back to
the full catalogue, discarding the user's restriction. -/
theorem C3_singleton_pool (cfg : PlantSelectionConfig) (allPlants : List Plant)
    (p : Plant)
    (hdesired : cfg.desiredPlantIds = some [p.id])
    (hone : 1 ≤ cfg.maxSpecies)
    (hfilter : allPlants.filter (fun plant => ([p.id] : List Int).contains plant.id) = [p])
    (hcase : cfg.maxSpecies = 1 ∨ allPlants = [p]) :
    PlantSelectorService.selectBestPlants cfg allPlants = [p] := by
  have hfu : PlantSelectorService.filterByUserPreferences cfg allPlants = [p] := by
    unfold PlantSelectorService.filterByUserPreferences
    rw [hdesired]
    simpa using hfilter
  unfold PlantSelectorService.selectBestPlants PlantSelectorService.filterBySeason
  rw [hfu]
  simp only []
  have hcand : (if List.length [p] < cfg.maxSpecies then allPlants else [p]) = [p] := by
    rcases hcase with h1 | hall
    · rw [h1]; simp
    · rw [hall]; split <;> rfl
  rw [hcand]
  simp only [List.map_cons, List.map_nil]
  exact greedySelection_singleton cfg _ hone

/-- C3, witness: the amended statement at a concrete catalogue with
`maxSpecies = 1`. -/
theorem C3_witness :
    PlantSelectorService.selectBestPlants
      { desiredPlantIds := some [plantTomate.id], maxSpecies := 1,
        objective := .alimenticio, compatibilityMatrix := [] }
      [plantTomate, plantRuda] = [plantTomate] :=
  C3_singleton_pool _ [plantTomate, plantRuda] plantTomate rfl (by norm_num)
    (by simp [plantTomate, plantRuda]) (Or.inl rfl)

/-- C4: a request that supplies only `userId` and `userExperience` is not
normalized successfully: the `categoryDistribution` default constructs
`new CategoryDistribution()` whose fields default to 0, and the
constructor's sum-to-100 validation throws, so the use case raises instead
of returning solutions.  This contradicts the code's own default-value
comment and the spec's S1 scenario, which expects 3 solutions. -/
theorem C4_default_distribution_error (ops : MathOps) (r : ℕ → ℚ) :
    GenerateGardenUseCase.normalizeRequest ops (GenerateGardenRequest.minimal "u" 2) r =
      Except.error "Category distribution must sum to 100" := by
  simp [GenerateGardenUseCase.normalizeRequest, GenerateGardenRequest.minimal,
    CategoryDistribution.build, Except.bind]
  norm_num

/-- C8: with a fixed seed the run is reproducible.  The embedded `run` is
a pure function of the catalogue, fitness configuration, GA configuration,
constraints, objective, seed and the elapsed-time oracle (the model of the
`Date.now()` timeout polls); the seeded constructor branch draws every
random decision from the single LCG stream `state ↦ (state·9301 + 49297)
mod 233280`, so two runs over identical inputs — including the clock
oracle, which stands for equal wall-clock behavior — produce identical
`topSolutions`. -/
theorem C8_seeded_run_reproducible :
    (∀ state : ℕ, GeneticAlgorithm.lcgNext state = (state * 9301 + 49297) % 233280) ∧
    (∀ seed n : ℕ, GeneticAlgorithm.seededStream seed n =
      (GeneticAlgorithm.lcgState seed (n + 1) : ℚ) / 233280) ∧
    (∀ (ops₁ ops₂ : MathOps) (plants₁ plants₂ : List Plant)
        (fcfg₁ fcfg₂ : FitnessConfig) (cfg₁ cfg₂ : GAConfig)
        (cons₁ cons₂ : GAConstraints) (obj₁ obj₂ : Objective) (seed₁ seed₂ : ℕ)
        (clock₁ clock₂ : ℕ → ℚ),
      ops₁ = ops₂ → plants₁ = plants₂ → fcfg₁ = fcfg₂ → cfg₁ = cfg₂ →
      cons₁ = cons₂ → obj₁ = obj₂ → seed₁ = seed₂ → clock₁ = clock₂ →
      (GeneticAlgorithm.runSeeded ops₁ plants₁ fcfg₁ cfg₁ cons₁ obj₁ seed₁ clock₁).map
          GeneticAlgorithm.GAResult.topSolutions =
        (GeneticAlgorithm.runSeeded ops₂ plants₂ fcfg₂ cfg₂ cons₂ obj₂ seed₂ clock₂).map
          GeneticAlgorithm.GAResult.topSolutions) := by
  refine ⟨fun _ => rfl, fun _ _ => rfl, ?_⟩
  intro ops₁ ops₂ plants₁ plants₂ fcfg₁ fcfg₂ cfg₁ cfg₂ cons₁ cons₂ obj₁ obj₂
    seed₁ seed₂ clock₁ clock₂ h1 h2 h3 h4 h5 h6 h7 h8
  subst h1 h2 h3 h4 h5 h6 h7 h8
  rfl

/-- C8, witness: the reproducibility equation at one concrete input. -/
theorem C8_witness :
    (GeneticAlgorithm.runSeeded sampleOps [plantTomate] sampleFitnessConfig
        insertScenarioConfig insertScenarioConstraints .alimenticio 42
        (fun _ => 0)).map GeneticAlgorithm.GAResult.topSolutions =
      (GeneticAlgorithm.runSeeded sampleOps [plantTomate] sampleFitnessConfig
        insertScenarioConfig insertScenarioConstraints .alimenticio 42
        (fun _ => 0)).map GeneticAlgorithm.GAResult.topSolutions :=
  C8_seeded_run_reproducible.2.2 sampleOps sampleOps [plantTomate] [plantTomate]
    sampleFitnessConfig sampleFitnessConfig insertScenarioConfig insertScenarioConfig
    insertScenarioConstraints insertScenarioConstraints .alimenticio .alimenticio
    42 42 (fun _ => 0) (fun _ => 0) rfl rfl rfl rfl rfl rfl rfl rfl

/-- C2, witness: the amended invariant applied at concrete inputs — the
initializer invariant at the insert scenario's configuration and the
insert-mutation case split at the concrete scenario. -/
theorem C2_spacing_witness :
    SpacedAtPlacement sampleOps hostileMatrix
      (GeneticAlgorithm.createSmartIndividual sampleOps hostileMatrix
        insertScenarioConfig insertScenarioConstraints [plantRuda]
        insertScenarioStream 0).1.plants ∧
    ((GeneticAlgorithm.insertMutation sampleOps hostileMatrix insertScenarioConfig
        insertScenarioConstraints [plantRuda] insertScenarioStream
        insertScenarioIndividual 0).1 = insertScenarioIndividual ∨
      ∃ x, (GeneticAlgorithm.insertMutation sampleOps hostileMatrix insertScenarioConfig
          insertScenarioConstraints [plantRuda] insertScenarioStream
          insertScenarioIndividual 0).1.plants =
          insertScenarioIndividual.plants ++ [x] ∧
        ∀ e ∈ insertScenarioIndividual.plants,
          GeneticAlgorithm.hasAdequateSpacing sampleOps hostileMatrix x e = true) :=
  ⟨C2_spacing_at_placement.1 sampleOps hostileMatrix insertScenarioConfig
      insertScenarioConstraints [plantRuda] insertScenarioStream 0,
   C2_spacing_at_placement.2.1 sampleOps hostileMatrix insertScenarioConfig
      insertScenarioConstraints [plantRuda] insertScenarioStream
      insertScenarioIndividual 0⟩

/-- C4, witness: the normalization error at one concrete stream. -/
theorem C4_witness :
    GenerateGardenUseCase.normalizeRequest sampleOps
      (GenerateGardenRequest.minimal "u" 2) (fun _ => 0) =
      Except.error "Category distribution must sum to 100" :=
  C4_default_distribution_error sampleOps (fun _ => 0)

/-- C5, witness: the amended dimension statement at the concrete empty
parents. -/
theorem C5_witness :
    (GeneticAlgorithm.uniformCrossover (fun _ => 0) emptyIndividualA
        emptyIndividualB 0).1.dimensions = emptyIndividualA.dimensions ∧
    (GeneticAlgorithm.uniformCrossover (fun _ => 0) emptyIndividualA
        emptyIndividualB 0).2.1.dimensions = emptyIndividualB.dimensions :=
  C5_crossover_dimensions (fun _ => 0) emptyIndividualA emptyIndividualB 0
